import Mathlib

/-!
# OCCSolid: shape classification and feature operations

A shallow embedding of `OCCSolid.cpp` (the solid entity of occmodel, a wrapper
around the OpenCASCADE boundary-representation kernel).

* `TopoDS_Shape` is the kernel's shape handle: either the null handle or a
  node of the topology graph carrying its `TopAbs_ShapeEnum` tag, an identity
  for the underlying `TShape`, and the ordered list of its direct sub-shapes.
* `TopExp_Explorer` is the kernel's sub-shape enumeration as `OCCSolid.cpp`
  drives it (`Init` / `More` / `Next` / `Current`), returned as the list of
  the successive `Current()` values.
* Kernel services whose result the wrapper only consumes (edge predicates,
  the fillet / chamfer / thick-solid builders, the analyzer) are fields of a
  `Kernel` record; every kernel call that registers a contribution or runs a
  build is recorded in a call trace.
* The builders behind the constructors and booleans are fields of a
  `BuildKernel` record, the repair routines behind `heal` fields of a
  `RepairKernel` record; `heal` records the repair routines it invokes.
* `HealingPipeline` states the healing stages and their composition the way
  the specification does, for comparison with `OCCSolid.heal`.
-/

namespace OCCModel

/-- The kernel's shape kinds, in the kernel's declaration order: a kind
declared earlier is more complex than a kind declared later. -/
inductive TopAbs_ShapeEnum where
  | COMPOUND
  | COMPSOLID
  | SOLID
  | SHELL
  | FACE
  | WIRE
  | EDGE
  | VERTEX
  | SHAPE
  deriving DecidableEq, Repr

/-- Position of a kind in the kernel's enumeration (its integer value). -/
def TopAbs_ShapeEnum.toNat : TopAbs_ShapeEnum → Nat
  | .COMPOUND => 0
  | .COMPSOLID => 1
  | .SOLID => 2
  | .SHELL => 3
  | .FACE => 4
  | .WIRE => 5
  | .EDGE => 6
  | .VERTEX => 7
  | .SHAPE => 8

/-- A shape handle. `null` is the empty handle (`IsNull()` holds); `mk` is a
node of the topology graph: its kind, the identity of its `TShape`, and its
direct sub-shapes in iteration order. -/
inductive TopoDS_Shape where
  | null : TopoDS_Shape
  | mk (type : TopAbs_ShapeEnum) (tshape : Nat) (subs : List TopoDS_Shape) : TopoDS_Shape
  deriving Repr

mutual
/-- Equality of shape handles is decidable (kind, identity and sub-shapes). -/
def TopoDS_Shape.decEq : (a b : TopoDS_Shape) → Decidable (a = b)
  | .null, .null => isTrue rfl
  | .null, .mk _ _ _ => isFalse (fun h => TopoDS_Shape.noConfusion h)
  | .mk _ _ _, .null => isFalse (fun h => TopoDS_Shape.noConfusion h)
  | .mk k1 n1 l1, .mk k2 n2 l2 =>
    if hk : k1 = k2 then
      if hn : n1 = n2 then
        match TopoDS_Shape.decEqList l1 l2 with
        | isTrue hl => isTrue (by rw [hk, hn, hl])
        | isFalse hl => isFalse (fun h => hl (TopoDS_Shape.mk.inj h).2.2)
      else isFalse (fun h => hn (TopoDS_Shape.mk.inj h).2.1)
    else isFalse (fun h => hk (TopoDS_Shape.mk.inj h).1)
/-- Equality of lists of shape handles is decidable. -/
def TopoDS_Shape.decEqList : (a b : List TopoDS_Shape) → Decidable (a = b)
  | [], [] => isTrue rfl
  | [], _ :: _ => isFalse (fun h => List.noConfusion h)
  | _ :: _, [] => isFalse (fun h => List.noConfusion h)
  | a :: as, b :: bs =>
    match TopoDS_Shape.decEq a b with
    | isTrue h1 =>
      match TopoDS_Shape.decEqList as bs with
      | isTrue h2 => isTrue (by rw [h1, h2])
      | isFalse h2 => isFalse (fun h => h2 (List.cons.inj h).2)
    | isFalse h1 => isFalse (fun h => h1 (List.cons.inj h).1)
end

instance : DecidableEq TopoDS_Shape := TopoDS_Shape.decEq

/-- `TopoDS_Shape::IsNull`. -/
def TopoDS_Shape.IsNull : TopoDS_Shape → Bool
  | .null => true
  | .mk _ _ _ => false

/-- `TopoDS_Shape::ShapeType`; `none` stands for the `Standard_NullObject`
failure raised on the null handle. -/
def TopoDS_Shape.ShapeType : TopoDS_Shape → Option TopAbs_ShapeEnum
  | .null => none
  | .mk type _ _ => some type

mutual
/-- The successive `Current()` values of
`for (ex.Init(S, toFind); ex.More(); ex.Next())`: the root itself when it has
the kind sought; nothing when the root is less complex than the kind sought;
otherwise the depth-first, left-to-right walk of the sub-shapes, which yields
a sub-shape of the kind sought without descending into it, and descends only
into sub-shapes more complex than the kind sought. -/
def TopExp_Explorer (toFind : TopAbs_ShapeEnum) : TopoDS_Shape → List TopoDS_Shape
  | .null => []
  | .mk type tshape subs =>
    if toFind = .SHAPE then []
    else if type = toFind then [.mk type tshape subs]
    else if toFind.toNat < type.toNat then []
    else TopExp_Explorer.subShapes toFind subs
/-- The walk of `TopExp_Explorer` over a list of sibling sub-shapes. -/
def TopExp_Explorer.subShapes (toFind : TopAbs_ShapeEnum) : List TopoDS_Shape → List TopoDS_Shape
  | [] => []
  | s :: rest => TopExp_Explorer toFind s ++ TopExp_Explorer.subShapes toFind rest
end

/-- The kernel failure signal (`Standard_Failure` and its subclasses). -/
inductive Standard_Failure where
  | raised
  deriving DecidableEq, Repr

/-- The solid entity: it owns one shape handle, the member `solid`. -/
structure OCCSolid where
  solid : TopoDS_Shape
  deriving DecidableEq, Repr

/-- `BRep_Builder::MakeCompound` followed by one `BRep_Builder::Add` per
element of `subs`, in order: a compound with exactly these direct sub-shapes.
The kernel allocates a new `TShape` at every call; allocation is not modelled,
and the identity of a built compound is rendered as `0`. That identity carries
no information: what is said of a built compound is said of its kind and of
its children, and two compounds are compared by `TopoDS_Shape.IsSameBody`. -/
def BRep_Builder.MakeCompound (subs : List TopoDS_Shape) : TopoDS_Shape :=
  .mk .COMPOUND 0 subs

/-- `OCCSolid::setShape`. The second loop of each pair runs after the first,
so the last `Current()` assigned wins in the single-body branch, and the
compound receives the solids first and the comp-solids after them. -/
def OCCSolid.setShape (self : OCCSolid) (shape : TopoDS_Shape) : Except Standard_Failure OCCSolid :=
  match shape.ShapeType with
  | none => .error .raised
  | some type =>
    if type = .SOLID ∨ type = .COMPSOLID then
      .ok (OCCSolid.mk shape)
    else
      let solids := (TopExp_Explorer .SOLID shape).length + (TopExp_Explorer .COMPSOLID shape).length
      if solids = 1 then
        let s1 := (TopExp_Explorer .SOLID shape).foldl (fun _ cur => cur) self.solid
        let s2 := (TopExp_Explorer .COMPSOLID shape).foldl (fun _ cur => cur) s1
        .ok (OCCSolid.mk s2)
      else
        .ok (OCCSolid.mk
          (BRep_Builder.MakeCompound (TopExp_Explorer .SOLID shape ++ TopExp_Explorer .COMPSOLID shape)))

/-- A `double` argument. The wrapper only copies these values from its
argument vectors into kernel calls, so any carrier with decidable equality
serves. -/
abbrev Standard_Real := Int

/-- The kernel calls of the feature operations that the call trace records.
* `MakeFillet_Add r e`: `fill.Add(r, e)`;
* `MakeFillet_Add2 r1 r2 e`: `fill.Add(r1, r2, e)`;
* `MakeChamfer_Add d e f`: `CF.Add(d, e, f)`;
* `Build`: the `Build()` of the fillet, chamfer or thick-solid builder. -/
inductive KernelCall where
  | MakeFillet_Add (radius : Standard_Real) (edge : TopoDS_Shape)
  | MakeFillet_Add2 (r1 r2 : Standard_Real) (edge : TopoDS_Shape)
  | MakeChamfer_Add (dis : Standard_Real) (edge face : TopoDS_Shape)
  | Build
  deriving DecidableEq, Repr

/-- What a kernel builder reports after `Build()`: it raised a
`Standard_Failure`, or `IsDone()` is false, or `IsDone()` is true and
`Shape()` is the given handle (possibly null). -/
inductive BuildOutcome where
  | raised
  | notDone
  | done (shape : TopoDS_Shape)
  deriving DecidableEq, Repr

/-- The kernel services consumed by the feature operations and the readers.
Edges and faces handed to an operation are elements of the entity's shape, so
the ancestor lookup `mapEdgeFace.FindFromKey(edge).First()` is a function of
the shape and the edge. -/
structure Kernel where
  /-- `BRep_Tool::Degenerated(edge)`. -/
  Degenerated : TopoDS_Shape → Bool
  /-- `mapEdgeFace.FindFromKey(edge).First()` for the ancestor map of `solid`:
  arguments are the solid and the edge. -/
  FindFromKey_First : TopoDS_Shape → TopoDS_Shape → TopoDS_Shape
  /-- `BRep_Tool::IsClosed(edge, face)`. -/
  IsClosed : TopoDS_Shape → TopoDS_Shape → Bool
  /-- `BRepFilletAPI_MakeFillet fill(solid)` after the recorded `Add` calls:
  the outcome of `fill.Build()`. -/
  MakeFillet_Build : TopoDS_Shape → List KernelCall → BuildOutcome
  /-- `BRepFilletAPI_MakeChamfer CF(solid)` after the recorded `Add` calls:
  the outcome of `CF.Build()`. -/
  MakeChamfer_Build : TopoDS_Shape → List KernelCall → BuildOutcome
  /-- `BRepOffsetAPI_MakeThickSolid TS(solid, facelist, offset, tolerance)`:
  the outcome of `TS.Build()`. -/
  MakeThickSolid_Build : TopoDS_Shape → List TopoDS_Shape → Standard_Real → Standard_Real → BuildOutcome
  /-- `BRepCheck_Analyzer ana(tmp, false); ana.IsValid()`. -/
  BRepCheck_Analyzer_IsValid : TopoDS_Shape → Bool
  /-- `BRepTools::Read(solid, fn, aBuilder)`: given the current value of the
  in-out handle and the file name, the new value of the handle, or a failure. -/
  BRepTools_Read : TopoDS_Shape → String → Except Standard_Failure TopoDS_Shape
  /-- `reader.ReadFile(fn); reader.NbRootsForTransfer(); reader.TransferRoots()`
  followed by `reader.OneShape()`: a failure raised by the first three calls, or
  the shape `OneShape()` returns. -/
  STEPControl_Reader : String → Except Standard_Failure TopoDS_Shape

/-- How a call of a public operation ends: it returns its `int` code, or a
kernel failure leaves it uncaught. -/
inductive Status where
  | returned (code : Int)
  | raised
  deriving DecidableEq, Repr

/-- The observable result of one call of a public operation: how it ended,
the entity afterwards, and the kernel calls it issued, in order. -/
structure Run where
  status : Status
  after : OCCSolid
  calls : List KernelCall
  deriving DecidableEq, Repr

/-- An edge takes part in fillet and chamfer when neither `continue` of the
loop body fires: it is not degenerated and it is not closed on (a seam of) its
first incident face. -/
def Kernel.eligible (K : Kernel) (solid edge : TopoDS_Shape) : Bool :=
  !K.Degenerated edge && !K.IsClosed edge (K.FindFromKey_First solid edge)

/-- The `for` loop of `OCCSolid::fillet` (lines 485-511) from index `i` on,
over the remaining edges, with `calls` the `Add` calls already made on `fill`.
`edges_size` is `edges.size()` and `radius.length` is `radius_size`; both are
taken to fit the `int` they are stored in together with `2*edges_size`.
The result is `some code` when the loop leaves the function by `return code`,
`none` when it runs to its end, with the `Add` calls made. Every index used
is in range on the branch that uses it. -/
def OCCSolid.filletLoop (K : Kernel) (solid : TopoDS_Shape) (edges_size : Nat)
    (radius : List Standard_Real) :
    Nat → List TopoDS_Shape → List KernelCall → Option Int × List KernelCall
  | _, [], calls => (none, calls)
  | i, edge :: rest, calls =>
    if K.Degenerated edge then
      OCCSolid.filletLoop K solid edges_size radius (i + 1) rest calls
    else
      let face := K.FindFromKey_First solid edge
      if K.IsClosed edge face then
        OCCSolid.filletLoop K solid edges_size radius (i + 1) rest calls
      else if radius.length = 1 then
        OCCSolid.filletLoop K solid edges_size radius (i + 1) rest
          (calls ++ [.MakeFillet_Add (radius.getD 0 0) edge])
      else if radius.length = edges_size then
        OCCSolid.filletLoop K solid edges_size radius (i + 1) rest
          (calls ++ [.MakeFillet_Add (radius.getD i 0) edge])
      else if radius.length = 2 * edges_size then
        OCCSolid.filletLoop K solid edges_size radius (i + 1) rest
          (calls ++ [.MakeFillet_Add2 (radius.getD (2 * i + 0) 0) (radius.getD (2 * i + 1) 0) edge])
      else
        (some 1, calls)

/-- The `for` loop of `OCCSolid::chamfer` (lines 432-457), as `filletLoop`. -/
def OCCSolid.chamferLoop (K : Kernel) (solid : TopoDS_Shape) (edges_size : Nat)
    (distances : List Standard_Real) :
    Nat → List TopoDS_Shape → List KernelCall → Option Int × List KernelCall
  | _, [], calls => (none, calls)
  | i, edge :: rest, calls =>
    if K.Degenerated edge then
      OCCSolid.chamferLoop K solid edges_size distances (i + 1) rest calls
    else
      let face := K.FindFromKey_First solid edge
      if K.IsClosed edge face then
        OCCSolid.chamferLoop K solid edges_size distances (i + 1) rest calls
      else if distances.length = 1 then
        OCCSolid.chamferLoop K solid edges_size distances (i + 1) rest
          (calls ++ [.MakeChamfer_Add (distances.getD 0 0) edge face])
      else if distances.length = edges_size then
        OCCSolid.chamferLoop K solid edges_size distances (i + 1) rest
          (calls ++ [.MakeChamfer_Add (distances.getD i 0) edge face])
      else
        (some 1, calls)

/-- The common tail of `fillet`, `chamfer` and `shell` after `Build()` has been
called (lines 515-528, 461-474, 542-555): `calls` is the trace including the
`Build` call and `built` its outcome. -/
def OCCSolid.commitBuilt (K : Kernel) (self : OCCSolid) (built : BuildOutcome)
    (calls : List KernelCall) : Run :=
  match built with
  | .raised => ⟨.raised, self, calls⟩
  | .notDone => ⟨.returned 1, self, calls⟩
  | .done tmp =>
    if tmp.IsNull then ⟨.returned 1, self, calls⟩
    else if !K.BRepCheck_Analyzer_IsValid tmp then ⟨.returned 1, self, calls⟩
    else
      match self.setShape tmp with
      | .error _ => ⟨.raised, self, calls⟩
      | .ok self1 => ⟨.returned 0, self1, calls⟩

/-- `OCCSolid::fillet`. -/
def OCCSolid.fillet (K : Kernel) (self : OCCSolid) (edges : List TopoDS_Shape)
    (radius : List Standard_Real) : Run :=
  match OCCSolid.filletLoop K self.solid edges.length radius 0 edges [] with
  | (some code, calls) => ⟨.returned code, self, calls⟩
  | (none, calls) =>
    OCCSolid.commitBuilt K self (K.MakeFillet_Build self.solid calls) (calls ++ [.Build])

/-- `OCCSolid::chamfer`. -/
def OCCSolid.chamfer (K : Kernel) (self : OCCSolid) (edges : List TopoDS_Shape)
    (distances : List Standard_Real) : Run :=
  match OCCSolid.chamferLoop K self.solid edges.length distances 0 edges [] with
  | (some code, calls) => ⟨.returned code, self, calls⟩
  | (none, calls) =>
    OCCSolid.commitBuilt K self (K.MakeChamfer_Build self.solid calls) (calls ++ [.Build])

/-- `OCCSolid::shell`; `faces` are the handles `face->getShape()` in order. -/
def OCCSolid.shell (K : Kernel) (self : OCCSolid) (faces : List TopoDS_Shape)
    (offset tolerance : Standard_Real) : Run :=
  let facelist := faces.foldl (fun l face => l ++ [face]) []
  OCCSolid.commitBuilt K self (K.MakeThickSolid_Build self.solid facelist offset tolerance) [.Build]

/-- `OCCSolid::readBREP`. `BRepTools::Clean` only drops cached triangulations
and leaves the handle as it is. -/
def OCCSolid.readBREP (K : Kernel) (self : OCCSolid) (fn : String) : Run :=
  match K.BRepTools_Read self.solid fn with
  | .error _ => ⟨.returned 1, self, []⟩
  | .ok shape => ⟨.returned 0, OCCSolid.mk shape, []⟩

/-- `OCCSolid::readSTEP`. -/
def OCCSolid.readSTEP (K : Kernel) (self : OCCSolid) (fn : String) : Run :=
  match K.STEPControl_Reader fn with
  | .error _ => ⟨.returned 1, self, []⟩
  | .ok shape => ⟨.returned 0, OCCSolid.mk shape, []⟩

/-! ## Constructors and booleans -/

/-- A `DVec`, the vector of doubles that carries a point or a direction. -/
abbrev DVec := List Standard_Real

/-- The transition modes `OCCSolid::sweep` selects from its `cornerMode`. -/
inductive BRepBuilderAPI_TransitionMode where
  | BRepBuilderAPI_Transformed
  | BRepBuilderAPI_RightCorner
  | BRepBuilderAPI_RoundCorner
  deriving DecidableEq, Repr

/-- A section handed to `BRepOffsetAPI_ThruSections` by `OCCSolid::loft`:
`TS.AddWire` or `TS.AddVertex` of a profile. -/
inductive ThruSection where
  | AddWire (wire : TopoDS_Shape)
  | AddVertex (vertex : TopoDS_Shape)
  deriving DecidableEq, Repr

/-- The kernel builders behind the constructors and the booleans. Each field
gives what the builder reports inside the `try` block of the operation:
`raised` when any of its calls raises a `Standard_Failure`, `notDone` when the
test the operation makes before `setShape` fails (`IsDone()`, `IsReady()`,
`MakeSolid()`), and `done s` when the test passes and `Shape()` is `s`. Where
the operation makes no test (`createSphere`), `Shape()` of a builder that is
not done raises, which the operation answers as it answers `notDone`. -/
structure BuildKernel where
  /-- `BRepOffsetAPI_Sewing SW(tolerance)`, `SW.Add` of each face, `SW.Perform()`:
  a failure, or `SW.SewedShape()`. -/
  Sewing : Standard_Real → List TopoDS_Shape → Except Standard_Failure TopoDS_Shape
  /-- `BRepPrimAPI_MakeSphere(center, radius)`. -/
  MakeSphere : DVec → Standard_Real → BuildOutcome
  /-- `BRepPrimAPI_MakeCylinder` on the axis from `p1` to `p2`. -/
  MakeCylinder : DVec → DVec → Standard_Real → BuildOutcome
  /-- `BRepPrimAPI_MakeTorus` on the axis from `p1` to `p2`. -/
  MakeTorus : DVec → DVec → Standard_Real → Standard_Real → BuildOutcome
  /-- `BRepPrimAPI_MakeCone` on the axis from `p1` to `p2`. -/
  MakeCone : DVec → DVec → Standard_Real → Standard_Real → BuildOutcome
  /-- `BRepPrimAPI_MakeBox(p1, p2)`. -/
  MakeBox : DVec → DVec → BuildOutcome
  /-- `BRepPrimAPI_MakePrism(face, direction, inf)` with a `gp_Dir` direction. -/
  MakePrism_Dir : TopoDS_Shape → DVec → Bool → BuildOutcome
  /-- `BRepPrimAPI_MakePrism(face, direction, false)` with the `gp_Vec` from
  `p1` to `p2`. -/
  MakePrism_Vec : TopoDS_Shape → DVec → DVec → BuildOutcome
  /-- `BRepPrimAPI_MakeRevol(face, axis, angle, false)`, axis from `p1` to `p2`. -/
  MakeRevol : TopoDS_Shape → DVec → DVec → Standard_Real → BuildOutcome
  /-- `BRepOffsetAPI_MakePipe(wire, face)`. -/
  MakePipe : TopoDS_Shape → TopoDS_Shape → BuildOutcome
  /-- `BRepOffsetAPI_MakePipeShell PS(spine)` with its transition mode and the
  added profiles: `IsReady()`, `Build()`, `MakeSolid()`, `Shape()`. -/
  MakePipeShell : TopoDS_Shape → BRepBuilderAPI_TransitionMode → List TopoDS_Shape → BuildOutcome
  /-- `BRepOffsetAPI_ThruSections TS(true, isRuled, tolerance)` with the added
  sections. -/
  ThruSections : Bool → Standard_Real → List ThruSection → BuildOutcome
  /-- `BRepAlgoAPI_Fuse BO(s1, s2)`. -/
  Fuse : TopoDS_Shape → TopoDS_Shape → BuildOutcome
  /-- `BRepAlgoAPI_Cut BO(s1, s2)`. -/
  Cut : TopoDS_Shape → TopoDS_Shape → BuildOutcome
  /-- `BRepAlgoAPI_Common BO(s1, s2)`. -/
  Common : TopoDS_Shape → TopoDS_Shape → BuildOutcome

/-- The end of a `try` block, `this->setShape(shape)` followed by `return 0`
after it: a failure raised by `setShape` is caught and answered by `return 1`. -/
def OCCSolid.trySetShape (self : OCCSolid) (shape : TopoDS_Shape) : Run :=
  match self.setShape shape with
  | .error _ => ⟨.returned 1, self, []⟩
  | .ok self1 => ⟨.returned 0, self1, []⟩

/-- The body shared by the constructors and booleans once the builder has
answered: `catch` and the failed test both `return 1`; otherwise the built
shape goes to `setShape`. -/
def OCCSolid.tryBuilt (self : OCCSolid) (built : BuildOutcome) : Run :=
  match built with
  | .raised => ⟨.returned 1, self, []⟩
  | .notDone => ⟨.returned 1, self, []⟩
  | .done shape => self.trySetShape shape

/-- `OCCSolid::createSolid`; `faces` are the handles `faces[i]->face`. -/
def OCCSolid.createSolid (B : BuildKernel) (self : OCCSolid) (faces : List TopoDS_Shape)
    (tolerance : Standard_Real) : Run :=
  match B.Sewing tolerance faces with
  | .error _ => ⟨.returned 1, self, []⟩
  | .ok sewed =>
    if sewed.IsNull then ⟨.returned 1, self, []⟩
    else self.trySetShape sewed

/-- `OCCSolid::createSphere`. -/
def OCCSolid.createSphere (B : BuildKernel) (self : OCCSolid) (center : DVec)
    (radius : Standard_Real) : Run :=
  self.tryBuilt (B.MakeSphere center radius)

/-- `OCCSolid::createCylinder`. -/
def OCCSolid.createCylinder (B : BuildKernel) (self : OCCSolid) (p1 p2 : DVec)
    (radius : Standard_Real) : Run :=
  self.tryBuilt (B.MakeCylinder p1 p2 radius)

/-- `OCCSolid::createTorus`. -/
def OCCSolid.createTorus (B : BuildKernel) (self : OCCSolid) (p1 p2 : DVec)
    (radius1 radius2 : Standard_Real) : Run :=
  self.tryBuilt (B.MakeTorus p1 p2 radius1 radius2)

/-- `OCCSolid::createCone`. -/
def OCCSolid.createCone (B : BuildKernel) (self : OCCSolid) (p1 p2 : DVec)
    (radius1 radius2 : Standard_Real) : Run :=
  self.tryBuilt (B.MakeCone p1 p2 radius1 radius2)

/-- `OCCSolid::createBox`. -/
def OCCSolid.createBox (B : BuildKernel) (self : OCCSolid) (p1 p2 : DVec) : Run :=
  self.tryBuilt (B.MakeBox p1 p2)

/-- `OCCSolid::createPrism`; `face` is the handle `face->getShape()`. -/
def OCCSolid.createPrism (B : BuildKernel) (self : OCCSolid) (face : TopoDS_Shape)
    (normal : DVec) (isInfinite : Bool) : Run :=
  let inf := if !isInfinite then false else true
  self.tryBuilt (B.MakePrism_Dir face normal inf)

/-- `OCCSolid::extrude`. -/
def OCCSolid.extrude (B : BuildKernel) (self : OCCSolid) (face : TopoDS_Shape)
    (p1 p2 : DVec) : Run :=
  self.tryBuilt (B.MakePrism_Vec face p1 p2)

/-- `OCCSolid::revolve`. -/
def OCCSolid.revolve (B : BuildKernel) (self : OCCSolid) (face : TopoDS_Shape)
    (p1 p2 : DVec) (angle : Standard_Real) : Run :=
  self.tryBuilt (B.MakeRevol face p1 p2 angle)

/-- `OCCSolid::pipe`; `wire` is the handle `wire->wire`. -/
def OCCSolid.pipe (B : BuildKernel) (self : OCCSolid) (face wire : TopoDS_Shape) : Run :=
  self.tryBuilt (B.MakePipe wire face)

/-- `OCCSolid::sweep`; `profiles` are the handles `profiles[i]->getShape()`. -/
def OCCSolid.sweep (B : BuildKernel) (self : OCCSolid) (spine : TopoDS_Shape)
    (profiles : List TopoDS_Shape) (cornerMode : Int) : Run :=
  let mode : BRepBuilderAPI_TransitionMode :=
    if cornerMode = 1 then .BRepBuilderAPI_RightCorner
    else if cornerMode = 2 then .BRepBuilderAPI_RoundCorner
    else .BRepBuilderAPI_Transformed
  self.tryBuilt (B.MakePipeShell spine mode profiles)

/-- The profile loop of `OCCSolid::loft` from the sections gathered so far:
`none` when `ShapeType()` of a null profile raises. -/
def OCCSolid.loftSections : List TopoDS_Shape → List ThruSection → Option (List ThruSection)
  | [], acc => some acc
  | profile :: rest, acc =>
    match profile.ShapeType with
    | none => none
    | some type =>
      if type = .WIRE then OCCSolid.loftSections rest (acc ++ [.AddWire profile])
      else OCCSolid.loftSections rest (acc ++ [.AddVertex profile])

/-- `OCCSolid::loft`. -/
def OCCSolid.loft (B : BuildKernel) (self : OCCSolid) (profiles : List TopoDS_Shape)
    (ruled : Bool) (tolerance : Standard_Real) : Run :=
  let isRuled := if !ruled then false else true
  match OCCSolid.loftSections profiles [] with
  | none => ⟨.returned 1, self, []⟩
  | some sections => self.tryBuilt (B.ThruSections isRuled tolerance sections)

/-- `OCCSolid::fuse`. -/
def OCCSolid.fuse (B : BuildKernel) (self tool : OCCSolid) : Run :=
  self.tryBuilt (B.Fuse tool.solid self.solid)

/-- `OCCSolid::cut`. -/
def OCCSolid.cut (B : BuildKernel) (self tool : OCCSolid) : Run :=
  self.tryBuilt (B.Cut self.solid tool.solid)

/-- `OCCSolid::common`. -/
def OCCSolid.common (B : BuildKernel) (self tool : OCCSolid) : Run :=
  self.tryBuilt (B.Common tool.solid self.solid)

/-! ## The constructors and booleans as one family -/

/-- A call of `createSolid`, of a primitive or sweep constructor, or of a
boolean, with its arguments. -/
inductive Construction where
  | createSolid (faces : List TopoDS_Shape) (tolerance : Standard_Real)
  | createSphere (center : DVec) (radius : Standard_Real)
  | createCylinder (p1 p2 : DVec) (radius : Standard_Real)
  | createTorus (p1 p2 : DVec) (radius1 radius2 : Standard_Real)
  | createCone (p1 p2 : DVec) (radius1 radius2 : Standard_Real)
  | createBox (p1 p2 : DVec)
  | createPrism (face : TopoDS_Shape) (normal : DVec) (isInfinite : Bool)
  | extrude (face : TopoDS_Shape) (p1 p2 : DVec)
  | revolve (face : TopoDS_Shape) (p1 p2 : DVec) (angle : Standard_Real)
  | pipe (face wire : TopoDS_Shape)
  | sweep (spine : TopoDS_Shape) (profiles : List TopoDS_Shape) (cornerMode : Int)
  | loft (profiles : List TopoDS_Shape) (ruled : Bool) (tolerance : Standard_Real)
  | fuse (tool : OCCSolid)
  | cut (tool : OCCSolid)
  | common (tool : OCCSolid)

/-- The call a `Construction` stands for, made on the entity `self`. -/
def OCCSolid.construct (B : BuildKernel) (self : OCCSolid) : Construction → Run
  | .createSolid faces tolerance => self.createSolid B faces tolerance
  | .createSphere center radius => self.createSphere B center radius
  | .createCylinder p1 p2 radius => self.createCylinder B p1 p2 radius
  | .createTorus p1 p2 radius1 radius2 => self.createTorus B p1 p2 radius1 radius2
  | .createCone p1 p2 radius1 radius2 => self.createCone B p1 p2 radius1 radius2
  | .createBox p1 p2 => self.createBox B p1 p2
  | .createPrism face normal isInfinite => self.createPrism B face normal isInfinite
  | .extrude face p1 p2 => self.extrude B face p1 p2
  | .revolve face p1 p2 angle => self.revolve B face p1 p2 angle
  | .pipe face wire => self.pipe B face wire
  | .sweep spine profiles cornerMode => self.sweep B spine profiles cornerMode
  | .loft profiles ruled tolerance => self.loft B profiles ruled tolerance
  | .fuse tool => self.fuse B tool
  | .cut tool => self.cut B tool
  | .common tool => self.common B tool

/-- The shape of a done build, when there is one. -/
def BuildKernel.shapeOf : BuildOutcome → Option TopoDS_Shape
  | .raised => none
  | .notDone => none
  | .done shape => some shape

/-- The shape the kernel hands back to the call, when it hands one back: the
sewn shape for `createSolid`, the `Shape()` of a done builder for the others;
`none` when the kernel raised, reported its build not done, or was not reached. -/
def BuildKernel.result (B : BuildKernel) (self : OCCSolid) : Construction → Option TopoDS_Shape
  | .createSolid faces tolerance =>
    match B.Sewing tolerance faces with
    | .error _ => none
    | .ok sewed => some sewed
  | .createSphere center radius => BuildKernel.shapeOf (B.MakeSphere center radius)
  | .createCylinder p1 p2 radius => BuildKernel.shapeOf (B.MakeCylinder p1 p2 radius)
  | .createTorus p1 p2 radius1 radius2 => BuildKernel.shapeOf (B.MakeTorus p1 p2 radius1 radius2)
  | .createCone p1 p2 radius1 radius2 => BuildKernel.shapeOf (B.MakeCone p1 p2 radius1 radius2)
  | .createBox p1 p2 => BuildKernel.shapeOf (B.MakeBox p1 p2)
  | .createPrism face normal isInfinite => BuildKernel.shapeOf (B.MakePrism_Dir face normal isInfinite)
  | .extrude face p1 p2 => BuildKernel.shapeOf (B.MakePrism_Vec face p1 p2)
  | .revolve face p1 p2 angle => BuildKernel.shapeOf (B.MakeRevol face p1 p2 angle)
  | .pipe face wire => BuildKernel.shapeOf (B.MakePipe wire face)
  | .sweep spine profiles cornerMode =>
    BuildKernel.shapeOf (B.MakePipeShell spine
      (if cornerMode = 1 then .BRepBuilderAPI_RightCorner
       else if cornerMode = 2 then .BRepBuilderAPI_RoundCorner
       else .BRepBuilderAPI_Transformed) profiles)
  | .loft profiles ruled tolerance =>
    match OCCSolid.loftSections profiles [] with
    | none => none
    | some sections => BuildKernel.shapeOf (B.ThruSections ruled tolerance sections)
  | .fuse tool => BuildKernel.shapeOf (B.Fuse tool.solid self.solid)
  | .cut tool => BuildKernel.shapeOf (B.Cut self.solid tool.solid)
  | .common tool => BuildKernel.shapeOf (B.Common tool.solid self.solid)

/-! ## The healing pipeline -/

/-- A request recorded on a `ShapeBuild_ReShape` before `Apply`:
`rebuild->Remove(shape, false)` or `rebuild->Replace(shape, newshape, false)`. -/
inductive ReShapeRequest where
  | Remove (shape : TopoDS_Shape)
  | Replace (shape newshape : TopoDS_Shape)
  deriving DecidableEq, Repr

/-- The kernel repair routines `OCCSolid::heal` invokes, as recorded in its
trace: one entry for each routine run whose result the code goes on to use. -/
inductive RepairCall where
  | ReShape_Apply
  | ShapeFix_Face
  | ShapeFix_Wire
  | ShapeFix_Wireframe
  | ShapeFix_FixSmallFace
  | Sewing
  | MakeSolid
  | ShapeFix_Shape
  | OrientClosedSolid
  deriving DecidableEq, Repr

/-- The kernel repair services consumed by `OCCSolid::heal`. -/
structure RepairKernel where
  /-- A `ShapeBuild_ReShape` holding the recorded requests:
  `rebuild->Apply(shape, until)`; `until` is `TopAbs_SHAPE` when omitted. -/
  ReShape_Apply : TopoDS_Shape → List ReShapeRequest → TopAbs_ShapeEnum → TopoDS_Shape
  /-- `ShapeFix_Face(face)` with natural-bound and small-area-wire modes on,
  after `Perform()`: `some sff->Face()` when one of `DONE1 .. DONE5` is set. -/
  ShapeFix_Face : TopoDS_Shape → Option TopoDS_Shape
  /-- `ShapeFix_Wire(oldwire, face, tolerance)` after its seven fixes:
  `some sfw->Wire()` when `replace` ends up true. -/
  ShapeFix_Wire : TopoDS_Shape → TopoDS_Shape → Standard_Real → Option TopoDS_Shape
  /-- `ShapeFix_Wireframe` loaded with the shape at the given precision, after
  `FixWireGaps()` and `FixSmallEdges()`: `sfwf->Shape()`. -/
  ShapeFix_Wireframe : TopoDS_Shape → Standard_Real → TopoDS_Shape
  /-- `ShapeFix_FixSmallFace` initialised with the shape at the given precision,
  after `Perform()`: `sffsm->FixShape()`. -/
  ShapeFix_FixSmallFace : TopoDS_Shape → Standard_Real → TopoDS_Shape
  /-- `BRepOffsetAPI_Sewing sewedObj(tolerance)` with the added faces, after
  `Perform()`: `sewedObj.SewedShape()`. -/
  Sewing : Standard_Real → List TopoDS_Shape → TopoDS_Shape
  /-- `BRepBuilderAPI_MakeSolid ms` with the added shells, as a shape. -/
  MakeSolid : List TopoDS_Shape → TopoDS_Shape
  /-- `BRepCheck_Analyzer ba(ms); ba.IsValid()`. -/
  BRepCheck_Analyzer_IsValid : TopoDS_Shape → Bool
  /-- `ShapeFix_Shape` initialised with the shape, precision and maximal
  tolerance set, after `Perform()`: `sfs->Shape()`. -/
  ShapeFix_Shape : TopoDS_Shape → Standard_Real → TopoDS_Shape
  /-- `BRepLib::OrientClosedSolid(newsolid)`: the solid after the call. -/
  OrientClosedSolid : TopoDS_Shape → TopoDS_Shape

/-- The state `OCCSolid::heal` works on: the member `solid` and the repair
routines invoked so far. -/
structure HealState where
  solid : TopoDS_Shape
  calls : List RepairCall
  deriving DecidableEq, Repr

/-- The block that removes the degenerated edges (lines 745-752, 793-800,
843-850 and 909-916): every edge the explorer finds is tested, a degenerated one
is recorded for removal, and `solid` becomes `rebuild->Apply(solid)`. -/
def OCCSolid.heal.removeDegenerated (K : Kernel) (R : RepairKernel) (st : HealState) : HealState :=
  let requests := ((TopExp_Explorer .EDGE st.solid).filter K.Degenerated).map ReShapeRequest.Remove
  ⟨R.ReShape_Apply st.solid requests .SHAPE, st.calls ++ [.ReShape_Apply]⟩

/-- The face block of `fixdegenerated` (lines 756-790): each face is run
through `ShapeFix_Face` and replaced when a fix applied. -/
def OCCSolid.heal.fixFaces (R : RepairKernel) (st : HealState) : HealState :=
  let faces := TopExp_Explorer .FACE st.solid
  let requests := faces.filterMap (fun face =>
    (R.ShapeFix_Face face).map (fun newface => ReShapeRequest.Replace face newface))
  ⟨R.ReShape_Apply st.solid requests .SHAPE,
    st.calls ++ faces.map (fun _ => RepairCall.ShapeFix_Face) ++ [.ReShape_Apply]⟩

/-- The wire block of `fixsmalledges` (lines 805-840): each wire of each face is
run through `ShapeFix_Wire` and replaced when a fix applied. -/
def OCCSolid.heal.fixWires (R : RepairKernel) (tolerance : Standard_Real) (st : HealState) :
    HealState :=
  let wires := (TopExp_Explorer .FACE st.solid).flatMap (fun face =>
    (TopExp_Explorer .WIRE face).map (fun oldwire => (oldwire, face)))
  let requests := wires.filterMap (fun p =>
    (R.ShapeFix_Wire p.1 p.2 tolerance).map (fun newwire => ReShapeRequest.Replace p.1 newwire))
  ⟨R.ReShape_Apply st.solid requests .SHAPE,
    st.calls ++ wires.map (fun _ => RepairCall.ShapeFix_Wire) ++ [.ReShape_Apply]⟩

/-- The wireframe block of `fixsmalledges` (lines 853-883). -/
def OCCSolid.heal.fixWireframe (R : RepairKernel) (tolerance : Standard_Real) (st : HealState) :
    HealState :=
  ⟨R.ShapeFix_Wireframe st.solid tolerance, st.calls ++ [.ShapeFix_Wireframe]⟩

/-- The body of `if (fixspotstripfaces)` (lines 887-891). -/
def OCCSolid.heal.fixSmallFace (R : RepairKernel) (tolerance : Standard_Real) (st : HealState) :
    HealState :=
  ⟨R.ShapeFix_FixSmallFace st.solid tolerance, st.calls ++ [.ShapeFix_FixSmallFace]⟩

/-- The body of `if (sewfaces)` (lines 895-905): every face of the shape is
added, and the sewn shape replaces `solid` unless it is null. -/
def OCCSolid.heal.sewFaces (R : RepairKernel) (tolerance : Standard_Real) (st : HealState) :
    HealState :=
  let sewed := R.Sewing tolerance (TopExp_Explorer .FACE st.solid)
  if !sewed.IsNull then ⟨sewed, st.calls ++ [.Sewing]⟩
  else ⟨st.solid, st.calls ++ [.Sewing]⟩

/-- The body of `if (makesolids)` (lines 920-947): the shells of the shape are
added to a solid maker; when there is at least one and the analyzer finds the
result valid, the shape-fix result replaces `solid`, and each solid the explorer
finds in it is then oriented and replaced in turn. -/
def OCCSolid.heal.makeSolids (R : RepairKernel) (tolerance : Standard_Real) (st : HealState) :
    HealState :=
  let shells := TopExp_Explorer .SHELL st.solid
  let count := shells.length
  if count ≠ 0 then
    let ms := R.MakeSolid shells
    if R.BRepCheck_Analyzer_IsValid ms then
      let fixed : HealState := ⟨R.ShapeFix_Shape ms tolerance, st.calls ++ [.MakeSolid, .ShapeFix_Shape]⟩
      (TopExp_Explorer .SOLID fixed.solid).foldl (fun (cur_st : HealState) cur =>
        let newsolid := R.OrientClosedSolid cur
        ⟨R.ReShape_Apply cur_st.solid [.Replace cur newsolid] .COMPSOLID,
          cur_st.calls ++ [.OrientClosedSolid, .ReShape_Apply]⟩) fixed
    else ⟨st.solid, st.calls ++ [.MakeSolid]⟩
  else st

/-- The result of `OCCSolid::heal`, a `void` method: the entity afterwards and
the repair routines it invoked, in order. -/
structure HealRun where
  after : OCCSolid
  calls : List RepairCall
  deriving DecidableEq, Repr

/-- `OCCSolid::heal`. -/
def OCCSolid.heal (K : Kernel) (R : RepairKernel) (self : OCCSolid) (tolerance : Standard_Real)
    (fixdegenerated fixsmalledges fixspotstripfaces sewfaces makesolids : Bool) : HealRun :=
  if !fixdegenerated && !fixsmalledges && !fixspotstripfaces && !sewfaces && !makesolids then
    ⟨self, []⟩
  else
    let st : HealState := ⟨self.solid, []⟩
    let st :=
      if fixdegenerated then
        let st := OCCSolid.heal.removeDegenerated K R st
        let st := OCCSolid.heal.fixFaces R st
        OCCSolid.heal.removeDegenerated K R st
      else st
    let st :=
      if fixsmalledges then
        let st := OCCSolid.heal.fixWires R tolerance st
        let st := OCCSolid.heal.removeDegenerated K R st
        OCCSolid.heal.fixWireframe R tolerance st
      else st
    let st := if fixspotstripfaces then OCCSolid.heal.fixSmallFace R tolerance st else st
    let st := if sewfaces then OCCSolid.heal.sewFaces R tolerance st else st
    let st := OCCSolid.heal.removeDegenerated K R st
    let st := if makesolids then OCCSolid.heal.makeSolids R tolerance st else st
    ⟨OCCSolid.mk st.solid, st.calls⟩

/-! ### The pipeline as the specification words it

The definitions of this section follow the specification of the healing
pipeline (its section 4.2), not the text of `OCCSolid::heal`: a configuration
of five toggles and a tolerance, the passes each stage is said to make, written
over the kernel services alone, and the composition of the six stages in the
stated order. They work on shapes; the trace of `OCCSolid::heal` has no
counterpart here. -/

/-- The healing configuration: five independent toggles and one tolerance. -/
structure HealingConfig where
  fixDegenerate : Bool
  fixSmallEdges : Bool
  fixSpotStripFaces : Bool
  sewFaces : Bool
  makeSolids : Bool
  tolerance : Standard_Real
  deriving DecidableEq, Repr

/-- Strip degenerate edges from the shape: each edge of the shape that the
kernel reports degenerate is removed, the others stay. -/
def HealingPipeline.stripDegenerateEdges (K : Kernel) (R : RepairKernel)
    (shape : TopoDS_Shape) : TopoDS_Shape :=
  R.ReShape_Apply shape
    ((TopExp_Explorer .EDGE shape).filterMap
      (fun edge => if K.Degenerated edge then some (ReShapeRequest.Remove edge) else none))
    .SHAPE

/-- For every face, attempt a face-level fix pass and replace the face in the
shape if any such fix applied: the replacements for a list of faces. -/
def HealingPipeline.faceReplacements (R : RepairKernel) : List TopoDS_Shape → List ReShapeRequest
  | [] => []
  | face :: rest =>
    match R.ShapeFix_Face face with
    | some fixed => .Replace face fixed :: HealingPipeline.faceReplacements R rest
    | none => HealingPipeline.faceReplacements R rest

/-- For every wire, attempt the wire fixes and replace the wire if any fix
applied: the replacements for a list of wires of one face. -/
def HealingPipeline.wireReplacements (R : RepairKernel) (tolerance : Standard_Real)
    (face : TopoDS_Shape) : List TopoDS_Shape → List ReShapeRequest
  | [] => []
  | wire :: rest =>
    match R.ShapeFix_Wire wire face tolerance with
    | some fixed => .Replace wire fixed :: HealingPipeline.wireReplacements R tolerance face rest
    | none => HealingPipeline.wireReplacements R tolerance face rest

/-- For every wire of every face: the wire replacements for a list of faces. -/
def HealingPipeline.faceWireReplacements (R : RepairKernel) (tolerance : Standard_Real) :
    List TopoDS_Shape → List ReShapeRequest
  | [] => []
  | face :: rest =>
    HealingPipeline.wireReplacements R tolerance face (TopExp_Explorer .WIRE face) ++
      HealingPipeline.faceWireReplacements R tolerance rest

/-- Stage 1, degenerate removal and face normalization: (a) strip the
degenerate edges, (b) fix the faces and replace those a fix applied to, (c)
strip the degenerate edges again. -/
def HealingPipeline.degenerateRemoval (K : Kernel) (R : RepairKernel)
    (shape : TopoDS_Shape) : TopoDS_Shape :=
  let stripped := HealingPipeline.stripDegenerateEdges K R shape
  let normalized := R.ReShape_Apply stripped
    (HealingPipeline.faceReplacements R (TopExp_Explorer .FACE stripped)) .SHAPE
  HealingPipeline.stripDegenerateEdges K R normalized

/-- Stage 2, small-edge and wire-frame repair: fix the wires of every face and
replace those a fix applied to, strip the degenerate edges, then run the
wireframe pass across the whole shape. -/
def HealingPipeline.smallEdgeRepair (K : Kernel) (R : RepairKernel) (tolerance : Standard_Real)
    (shape : TopoDS_Shape) : TopoDS_Shape :=
  let rewired := R.ReShape_Apply shape
    (HealingPipeline.faceWireReplacements R tolerance (TopExp_Explorer .FACE shape)) .SHAPE
  let stripped := HealingPipeline.stripDegenerateEdges K R rewired
  R.ShapeFix_Wireframe stripped tolerance

/-- Stage 3, spot and strip face removal: the shape is replaced by the result
of the small-face pass at the tolerance. -/
def HealingPipeline.spotStripRemoval (R : RepairKernel) (tolerance : Standard_Real)
    (shape : TopoDS_Shape) : TopoDS_Shape :=
  R.ShapeFix_FixSmallFace shape tolerance

/-- Stage 4, face sewing: every face of the shape is collected and sewn within
the tolerance; a result that is not empty replaces the shape, an empty (null)
result leaves the prior shape. -/
def HealingPipeline.faceSewing (R : RepairKernel) (tolerance : Standard_Real)
    (shape : TopoDS_Shape) : TopoDS_Shape :=
  match R.Sewing tolerance (TopExp_Explorer .FACE shape) with
  | .null => shape
  | .mk type tshape subs => .mk type tshape subs

/-- Stage 5, the degenerate-edge cleanup. -/
def HealingPipeline.degenerateCleanup (K : Kernel) (R : RepairKernel)
    (shape : TopoDS_Shape) : TopoDS_Shape :=
  HealingPipeline.stripDegenerateEdges K R shape

/-- For every resulting solid ensure consistent outward orientation, replacing
each solid in the shape accordingly: the solids are taken one after the other,
each replaced by its oriented version in the shape reached so far. -/
def HealingPipeline.orientSolids (R : RepairKernel) : List TopoDS_Shape → TopoDS_Shape → TopoDS_Shape
  | [], shape => shape
  | solid :: rest, shape =>
    HealingPipeline.orientSolids R rest
      (R.ReShape_Apply shape [.Replace solid (R.OrientClosedSolid solid)] .COMPSOLID)

/-- Stage 6, solid reconstruction: every shell of the shape is collected; with
no shell the shape stays; otherwise the shells are closed into solids, and if
that result analyzes as valid it goes through the shape-fix pass at the
tolerance and each solid of the fixed shape is oriented and replaced; if it
does not analyze as valid the shape stays. -/
def HealingPipeline.solidReconstruction (R : RepairKernel) (tolerance : Standard_Real)
    (shape : TopoDS_Shape) : TopoDS_Shape :=
  match TopExp_Explorer .SHELL shape with
  | [] => shape
  | shell :: shells =>
    let closed := R.MakeSolid (shell :: shells)
    match R.BRepCheck_Analyzer_IsValid closed with
    | false => shape
    | true =>
      let fixed := R.ShapeFix_Shape closed tolerance
      HealingPipeline.orientSolids R (TopExp_Explorer .SOLID fixed) fixed

/-- The stages in their fixed order, each paired with the condition under
which it runs: its toggle, and no condition for the cleanup. -/
def HealingPipeline.stages (K : Kernel) (R : RepairKernel) (cfg : HealingConfig) :
    List (Bool × (TopoDS_Shape → TopoDS_Shape)) :=
  [(cfg.fixDegenerate, HealingPipeline.degenerateRemoval K R),
   (cfg.fixSmallEdges, HealingPipeline.smallEdgeRepair K R cfg.tolerance),
   (cfg.fixSpotStripFaces, HealingPipeline.spotStripRemoval R cfg.tolerance),
   (cfg.sewFaces, HealingPipeline.faceSewing R cfg.tolerance),
   (true, HealingPipeline.degenerateCleanup K R),
   (cfg.makeSolids, HealingPipeline.solidReconstruction R cfg.tolerance)]

/-- The composition of the stages: each stage whose condition holds is applied
to the output of the stage before it; a stage whose condition fails is skipped. -/
def HealingPipeline.run (K : Kernel) (R : RepairKernel) (cfg : HealingConfig)
    (shape : TopoDS_Shape) : TopoDS_Shape :=
  (HealingPipeline.stages K R cfg).foldl
    (fun shape stage => if stage.1 then stage.2 shape else shape) shape

/-! ## Sample shapes and kernels used to exercise the definitions -/

/-- A solid with `TShape` identity `n` and no recorded sub-shapes. -/
def sampleSolid (n : Nat) : TopoDS_Shape := .mk .SOLID n []

/-- A compound holding two solids with a stray face between them. -/
def sampleMixed : TopoDS_Shape := .mk .COMPOUND 5 [sampleSolid 1, .mk .FACE 3 [], sampleSolid 2]

/-- A face used by the samples. -/
def sampleFace : TopoDS_Shape := .mk .FACE 3 []

/-- An ordinary edge with `TShape` identity `n`. -/
def sampleEdge (n : Nat) : TopoDS_Shape := .mk .EDGE n []

/-- The edge the sample kernel reports as degenerated. -/
def sampleDegenerated : TopoDS_Shape := .mk .EDGE 90 []

/-- A solid bounded by one shell with the sample face. -/
def sampleBody : TopoDS_Shape := .mk .SOLID 1 [.mk .SHELL 2 [sampleFace]]

/-- A kernel for the samples: edge `90` is degenerated and no edge is a seam;
the ancestor lookup answers the first face of the solid; a fillet or chamfer
build with no contribution is not done and otherwise returns a compound
wrapping the solid it was given; the thick-solid build returns the solid; the
analyzer accepts every shape; both readers deliver a lone face. -/
def sampleKernel : Kernel :=
  Kernel.mk
    (fun edge => decide (edge = sampleDegenerated))
    (fun solid _ => (TopExp_Explorer .FACE solid).headD .null)
    (fun _ _ => false)
    (fun solid calls => if calls = [] then .notDone else .done (.mk .COMPOUND 8 [solid]))
    (fun solid calls => if calls = [] then .notDone else .done (.mk .COMPOUND 8 [solid]))
    (fun solid _ _ _ => .done solid)
    (fun _ => true)
    (fun _ _ => .ok sampleFace)
    (fun _ => .ok sampleFace)

/-- A kernel that differs from `sampleKernel` in its builders only: the
fillet, chamfer and thick-solid builds raise a kernel failure. -/
def raisingKernel : Kernel :=
  Kernel.mk
    sampleKernel.Degenerated
    sampleKernel.FindFromKey_First
    sampleKernel.IsClosed
    (fun _ _ => .raised)
    (fun _ _ => .raised)
    (fun _ _ _ _ => .raised)
    sampleKernel.BRepCheck_Analyzer_IsValid
    sampleKernel.BRepTools_Read
    sampleKernel.STEPControl_Reader

/-- A kernel for the constructors and booleans: sewing faces gives the null
shape when no face is added and a shell of the faces otherwise; the box builder
is done with a compound wrapping one solid; the fuse builder raises; the cut
builder is not done; every other builder is done with `sampleBody`. -/
def sampleBuildKernel : BuildKernel :=
  BuildKernel.mk
    (fun _ faces => if faces = [] then .ok .null else .ok (.mk .SHELL 20 faces))
    (fun _ _ => .done sampleBody)
    (fun _ _ _ => .done sampleBody)
    (fun _ _ _ _ => .done sampleBody)
    (fun _ _ _ _ => .done sampleBody)
    (fun _ _ => .done (.mk .COMPOUND 21 [sampleSolid 4]))
    (fun _ _ _ => .done sampleBody)
    (fun _ _ _ => .done sampleBody)
    (fun _ _ _ _ => .done sampleBody)
    (fun _ _ => .done sampleBody)
    (fun _ _ _ => .done sampleBody)
    (fun _ _ _ => .done sampleBody)
    (fun _ _ => .raised)
    (fun _ _ => .notDone)
    (fun _ _ => .done sampleBody)

/-- A repair kernel for the samples: a re-shape drops nothing and answers the
shape it was given, no face or wire needs a fix, the wireframe and small-face
passes answer the shape they were given, sewing answers a shell of the faces
added (the null shape when there is none), and solid making wraps the shells in
a solid that the analyzer accepts and the later passes leave as it is. -/
def sampleRepairKernel : RepairKernel :=
  RepairKernel.mk
    (fun shape _ _ => shape)
    (fun _ => none)
    (fun _ _ _ => none)
    (fun shape _ => shape)
    (fun shape _ => shape)
    (fun _ faces => if faces = [] then .null else .mk .SHELL 30 faces)
    (fun shells => .mk .SOLID 31 shells)
    (fun _ => true)
    (fun shape _ => shape)
    (fun solid => solid)

/-! # Theorems -/


/-! ## The explorer -/

mutual
theorem TopExp_Explorer.type_of_mem (toFind : TopAbs_ShapeEnum) :
    ∀ (s x : TopoDS_Shape), x ∈ TopExp_Explorer toFind s → x.ShapeType = some toFind
  | .null, x, h => by simp [TopExp_Explorer] at h
  | .mk type tshape subs, x, h => by
    unfold TopExp_Explorer at h
    split at h
    · simp at h
    · split at h
      · rename_i hty
        simp only [List.mem_singleton] at h
        subst h
        simp [TopoDS_Shape.ShapeType, hty]
      · split at h
        · simp at h
        · exact TopExp_Explorer.subShapes_type_of_mem toFind subs x h
theorem TopExp_Explorer.subShapes_type_of_mem (toFind : TopAbs_ShapeEnum) :
    ∀ (l : List TopoDS_Shape) (x : TopoDS_Shape),
      x ∈ TopExp_Explorer.subShapes toFind l → x.ShapeType = some toFind
  | [], x, h => by simp [TopExp_Explorer.subShapes] at h
  | s :: rest, x, h => by
    unfold TopExp_Explorer.subShapes at h
    rcases List.mem_append.mp h with h1 | h2
    · exact TopExp_Explorer.type_of_mem toFind s x h1
    · exact TopExp_Explorer.subShapes_type_of_mem toFind rest x h2
end

/-- The first branch of `setShape`: a Solid or CompSolid is stored as is. -/
theorem OCCSolid.setShape_of_solid (self : OCCSolid) (shape : TopoDS_Shape)
    (h : shape.ShapeType = some .SOLID ∨ shape.ShapeType = some .COMPSOLID) :
    self.setShape shape = .ok (OCCSolid.mk shape) := by
  rcases h with h | h <;> simp [OCCSolid.setShape, h]

/-- C1: for every shape whose kind is Solid or CompSolid, `setShape` stores
exactly that shape, unchanged, as the shape of the entity. -/
theorem setShape_solid_unchanged (self : OCCSolid) (shape : TopoDS_Shape)
    (h : shape.ShapeType = some .SOLID ∨ shape.ShapeType = some .COMPSOLID) :
    self.setShape shape = .ok (OCCSolid.mk shape) :=
  OCCSolid.setShape_of_solid self shape h

/-- C1 (witness): a lone solid is stored as it is. -/
theorem setShape_solid_unchanged_witness :
    ((sampleSolid 1).ShapeType = some .SOLID ∨ (sampleSolid 1).ShapeType = some .COMPSOLID) ∧
      (OCCSolid.mk .null).setShape (sampleSolid 1) = .ok (OCCSolid.mk (sampleSolid 1)) :=
  ⟨Or.inl rfl, setShape_solid_unchanged (OCCSolid.mk .null) (sampleSolid 1) (Or.inl rfl)⟩

/-- The single-body branch of `setShape`: the one enumerated sub-shape is
stored, and it is a Solid or a CompSolid. -/
theorem OCCSolid.setShape_of_single (self : OCCSolid) (shape x : TopoDS_Shape)
    (type : TopAbs_ShapeEnum) (hty : shape.ShapeType = some type)
    (h1 : type ≠ .SOLID) (h2 : type ≠ .COMPSOLID)
    (hx : TopExp_Explorer .SOLID shape ++ TopExp_Explorer .COMPSOLID shape = [x]) :
    self.setShape shape = .ok (OCCSolid.mk x) ∧
      (x.ShapeType = some .SOLID ∨ x.ShapeType = some .COMPSOLID) := by
  generalize hS : TopExp_Explorer .SOLID shape = S at hx
  generalize hC : TopExp_Explorer .COMPSOLID shape = C at hx
  cases S with
  | nil =>
    simp only [List.nil_append] at hx
    subst hx
    refine ⟨?_, Or.inr ?_⟩
    · simp [OCCSolid.setShape, hty, h1, h2, hS, hC]
    · exact TopExp_Explorer.type_of_mem .COMPSOLID shape x (by simp [hC])
  | cons a S1 =>
    simp only [List.cons_append, List.cons.injEq, List.append_eq_nil] at hx
    obtain ⟨ha, hS1, hC1⟩ := hx
    subst ha hS1 hC1
    refine ⟨?_, Or.inl ?_⟩
    · simp [OCCSolid.setShape, hty, h1, h2, hS, hC]
    · exact TopExp_Explorer.type_of_mem .SOLID shape a (by simp [hS])

/-- C2: for every shape whose kind is neither Solid nor CompSolid and whose
enumeration of Solid sub-shapes followed by CompSolid sub-shapes has exactly
one entry `x`, `setShape` stores `x` itself, and `x` is a Solid or a CompSolid,
not a Compound wrapping one. -/
theorem setShape_single_unwrapped (self : OCCSolid) (shape x : TopoDS_Shape)
    (type : TopAbs_ShapeEnum) (hty : shape.ShapeType = some type)
    (h1 : type ≠ .SOLID) (h2 : type ≠ .COMPSOLID)
    (hx : TopExp_Explorer .SOLID shape ++ TopExp_Explorer .COMPSOLID shape = [x]) :
    self.setShape shape = .ok (OCCSolid.mk x) ∧
      (x.ShapeType = some .SOLID ∨ x.ShapeType = some .COMPSOLID) :=
  OCCSolid.setShape_of_single self shape x type hty h1 h2 hx

/-- C2 (witness): a compound holding a shell and one solid is stored as that
solid. -/
theorem setShape_single_unwrapped_witness :
    (TopExp_Explorer .SOLID (.mk .COMPOUND 7 [.mk .SHELL 3 [], sampleSolid 1]) ++
        TopExp_Explorer .COMPSOLID (.mk .COMPOUND 7 [.mk .SHELL 3 [], sampleSolid 1])
        = [sampleSolid 1]) ∧
      ((OCCSolid.mk .null).setShape (.mk .COMPOUND 7 [.mk .SHELL 3 [], sampleSolid 1])
          = .ok (OCCSolid.mk (sampleSolid 1)) ∧
        ((sampleSolid 1).ShapeType = some .SOLID ∨ (sampleSolid 1).ShapeType = some .COMPSOLID)) :=
  ⟨rfl, setShape_single_unwrapped (OCCSolid.mk .null) (.mk .COMPOUND 7 [.mk .SHELL 3 [], sampleSolid 1])
    (sampleSolid 1) .COMPOUND rfl (by decide) (by decide) rfl⟩

/-- The compound branch of `setShape`: the enumerated sub-shapes are gathered,
in order, in a new Compound. -/
theorem OCCSolid.setShape_of_several (self : OCCSolid) (shape : TopoDS_Shape)
    (type : TopAbs_ShapeEnum) (hty : shape.ShapeType = some type)
    (h1 : type ≠ .SOLID) (h2 : type ≠ .COMPSOLID)
    (hK : (TopExp_Explorer .SOLID shape ++ TopExp_Explorer .COMPSOLID shape).length ≠ 1) :
    self.setShape shape = .ok (OCCSolid.mk (.mk .COMPOUND 0
      (TopExp_Explorer .SOLID shape ++ TopExp_Explorer .COMPSOLID shape))) := by
  rw [List.length_append] at hK
  simp [OCCSolid.setShape, hty, h1, h2, hK, BRep_Builder.MakeCompound]

/-- C3: for every shape whose kind is neither Solid nor CompSolid and whose
enumeration of Solid sub-shapes followed by CompSolid sub-shapes has a number
of entries other than one, `setShape` stores a new Compound whose children are
exactly the enumerated sub-shapes in discovery order. With `K ≥ 2` solids this
is the Compound of those `K` solids; with no entry it is the empty Compound. -/
theorem setShape_compound_of_enumeration (self : OCCSolid) (shape : TopoDS_Shape)
    (type : TopAbs_ShapeEnum) (hty : shape.ShapeType = some type)
    (h1 : type ≠ .SOLID) (h2 : type ≠ .COMPSOLID)
    (hK : (TopExp_Explorer .SOLID shape ++ TopExp_Explorer .COMPSOLID shape).length ≠ 1) :
    self.setShape shape = .ok (OCCSolid.mk (.mk .COMPOUND 0
      (TopExp_Explorer .SOLID shape ++ TopExp_Explorer .COMPSOLID shape))) :=
  OCCSolid.setShape_of_several self shape type hty h1 h2 hK

/-- C3 (witness): a compound holding two solids and a stray face is stored as a
new Compound of the two solids, in order. -/
theorem setShape_compound_of_enumeration_witness :
    (TopExp_Explorer .SOLID sampleMixed ++ TopExp_Explorer .COMPSOLID sampleMixed).length ≠ 1 ∧
      (OCCSolid.mk .null).setShape sampleMixed
        = .ok (OCCSolid.mk (.mk .COMPOUND 0 [sampleSolid 1, sampleSolid 2])) :=
  ⟨by decide, setShape_compound_of_enumeration (OCCSolid.mk .null) sampleMixed .COMPOUND rfl
    (by decide) (by decide) (by decide)⟩

/-- Whatever `setShape` stores is a Solid, a CompSolid or a Compound. -/
theorem OCCSolid.setShape_canonical (self self1 : OCCSolid) (shape : TopoDS_Shape)
    (h : self.setShape shape = .ok self1) :
    self1.solid.ShapeType = some .SOLID ∨ self1.solid.ShapeType = some .COMPSOLID ∨
      self1.solid.ShapeType = some .COMPOUND := by
  cases hty : shape.ShapeType with
  | none => simp [OCCSolid.setShape, hty] at h
  | some type =>
    by_cases hsc : type = .SOLID ∨ type = .COMPSOLID
    · have hsc2 : shape.ShapeType = some .SOLID ∨ shape.ShapeType = some .COMPSOLID := by
        rcases hsc with h1 | h1
        · exact Or.inl (by rw [hty, h1])
        · exact Or.inr (by rw [hty, h1])
      rw [OCCSolid.setShape_of_solid self shape hsc2] at h
      cases h
      rcases hsc2 with h1 | h1
      · exact Or.inl h1
      · exact Or.inr (Or.inl h1)
    · have h1 : type ≠ .SOLID := fun h => hsc (Or.inl h)
      have h2 : type ≠ .COMPSOLID := fun h => hsc (Or.inr h)
      by_cases hK : (TopExp_Explorer .SOLID shape ++ TopExp_Explorer .COMPSOLID shape).length = 1
      · obtain ⟨x, hx⟩ := List.length_eq_one.mp hK
        obtain ⟨hset, hxty⟩ := OCCSolid.setShape_of_single self shape x type hty h1 h2 hx
        rw [hset] at h
        cases h
        rcases hxty with h3 | h3
        · exact Or.inl h3
        · exact Or.inr (Or.inl h3)
      · rw [OCCSolid.setShape_of_several self shape type hty h1 h2 hK] at h
        cases h
        exact Or.inr (Or.inr rfl)

/-! ## The readers -/

/-- C5 (evaluation at the failing input): `readSTEP` of a file whose transfer
yields a lone face reports success and leaves the entity holding a shape of
kind Face, which is none of Solid, CompSolid, Compound. -/
theorem readSTEP_stores_face :
    ((OCCSolid.mk sampleBody).readSTEP sampleKernel "face.stp").status = .returned 0 ∧
      ((OCCSolid.mk sampleBody).readSTEP sampleKernel "face.stp").after.solid.ShapeType = some .FACE :=
  ⟨rfl, rfl⟩

/-! ## The binding loops of fillet and chamfer -/

/-- The tail shared by the feature operations issues no further kernel call. -/
theorem OCCSolid.commitBuilt_calls (K : Kernel) (self : OCCSolid) (built : BuildOutcome)
    (calls : List KernelCall) : (OCCSolid.commitBuilt K self built calls).calls = calls := by
  unfold OCCSolid.commitBuilt
  split
  · rfl
  · rfl
  · split
    · rfl
    · split
      · rfl
      · split <;> rfl

/-- With a single radius the fillet loop runs to its end and adds that radius
for each eligible edge, in order. -/
theorem OCCSolid.filletLoop_uniform (K : Kernel) (solid : TopoDS_Shape) (n : Nat)
    (v : Standard_Real) (edges : List TopoDS_Shape) :
    ∀ (i : Nat) (calls : List KernelCall),
      OCCSolid.filletLoop K solid n [v] i edges calls =
        (none, calls ++ (edges.filter (K.eligible solid)).map (fun e => KernelCall.MakeFillet_Add v e)) := by
  induction edges with
  | nil => intro i calls; simp [OCCSolid.filletLoop]
  | cons edge rest ih =>
    intro i calls
    unfold OCCSolid.filletLoop
    by_cases hd : K.Degenerated edge = true
    · simp [hd, ih, Kernel.eligible]
    · by_cases hc : K.IsClosed edge (K.FindFromKey_First solid edge) = true
      · simp [hd, hc, ih, Kernel.eligible]
      · simp [hd, hc, ih, Kernel.eligible]

/-- With a single distance the chamfer loop runs to its end and adds that
distance for each eligible edge, in order. -/
theorem OCCSolid.chamferLoop_uniform (K : Kernel) (solid : TopoDS_Shape) (n : Nat)
    (v : Standard_Real) (edges : List TopoDS_Shape) :
    ∀ (i : Nat) (calls : List KernelCall),
      OCCSolid.chamferLoop K solid n [v] i edges calls =
        (none, calls ++ (edges.filter (K.eligible solid)).map
          (fun e => KernelCall.MakeChamfer_Add v e (K.FindFromKey_First solid e))) := by
  induction edges with
  | nil => intro i calls; simp [OCCSolid.chamferLoop]
  | cons edge rest ih =>
    intro i calls
    unfold OCCSolid.chamferLoop
    by_cases hd : K.Degenerated edge = true
    · simp [hd, ih, Kernel.eligible]
    · by_cases hc : K.IsClosed edge (K.FindFromKey_First solid edge) = true
      · simp [hd, hc, ih, Kernel.eligible]
      · simp [hd, hc, ih, Kernel.eligible]

/-- C6: uniform policy. For every edge list and every parameter list of length
one, fillet and chamfer issue exactly one registration call for each eligible
edge (not degenerated, not a seam), in input order, each with the single value,
and none for an excluded edge; the build call follows. -/
theorem fillet_chamfer_uniform (K : Kernel) (self : OCCSolid) (edges : List TopoDS_Shape)
    (v : Standard_Real) :
    (self.fillet K edges [v]).calls =
        (edges.filter (K.eligible self.solid)).map (fun e => KernelCall.MakeFillet_Add v e)
          ++ [.Build] ∧
      (self.chamfer K edges [v]).calls =
        (edges.filter (K.eligible self.solid)).map
          (fun e => KernelCall.MakeChamfer_Add v e (K.FindFromKey_First self.solid e))
          ++ [.Build] := by
  constructor
  · simp [OCCSolid.fillet, OCCSolid.filletLoop_uniform, OCCSolid.commitBuilt_calls]
  · simp [OCCSolid.chamfer, OCCSolid.chamferLoop_uniform, OCCSolid.commitBuilt_calls]

/-- With one radius per supplied edge the fillet loop runs to its end: the edge
at input position `i`, when eligible, is added with `radius[i]`. -/
theorem OCCSolid.filletLoop_perEdge (K : Kernel) (solid : TopoDS_Shape)
    (radius : List Standard_Real) (rest : List TopoDS_Shape) :
    ∀ (i : Nat) (calls : List KernelCall), i + rest.length = radius.length →
      OCCSolid.filletLoop K solid radius.length radius i rest calls =
        (none, calls ++ ((rest.zip (radius.drop i)).filter (fun p => K.eligible solid p.1)).map
          (fun p => KernelCall.MakeFillet_Add p.2 p.1)) := by
  induction rest with
  | nil => intro i calls _; simp [OCCSolid.filletLoop]
  | cons edge rest ih =>
    intro i calls hlen
    simp only [List.length_cons] at hlen
    have hi : i < radius.length := by omega
    have hdrop : radius.drop i = radius.getD i 0 :: radius.drop (i + 1) := by
      rw [List.drop_eq_getElem_cons hi]
      simp [List.getD_eq_getElem?_getD, List.getElem?_eq_getElem hi]
    have ih1 := fun calls1 => ih (i + 1) calls1 (by omega)
    unfold OCCSolid.filletLoop
    rw [hdrop]
    by_cases hd : K.Degenerated edge = true
    · simp [hd, ih1, Kernel.eligible]
    · by_cases hc : K.IsClosed edge (K.FindFromKey_First solid edge) = true
      · simp [hd, hc, ih1, Kernel.eligible]
      · by_cases h1 : radius.length = 1
        · have hi0 : i = 0 := by omega
          have hrest : rest = [] := List.length_eq_zero.mp (by omega)
          subst hi0 hrest
          simp [hd, hc, Kernel.eligible, h1, OCCSolid.filletLoop]
        · simp [hd, hc, ih1, Kernel.eligible, h1]

/-- With one distance per supplied edge the chamfer loop runs to its end: the
edge at input position `i`, when eligible, is added with `distances[i]`. -/
theorem OCCSolid.chamferLoop_perEdge (K : Kernel) (solid : TopoDS_Shape)
    (distances : List Standard_Real) (rest : List TopoDS_Shape) :
    ∀ (i : Nat) (calls : List KernelCall), i + rest.length = distances.length →
      OCCSolid.chamferLoop K solid distances.length distances i rest calls =
        (none, calls ++ ((rest.zip (distances.drop i)).filter (fun p => K.eligible solid p.1)).map
          (fun p => KernelCall.MakeChamfer_Add p.2 p.1 (K.FindFromKey_First solid p.1))) := by
  induction rest with
  | nil => intro i calls _; simp [OCCSolid.chamferLoop]
  | cons edge rest ih =>
    intro i calls hlen
    simp only [List.length_cons] at hlen
    have hi : i < distances.length := by omega
    have hdrop : distances.drop i = distances.getD i 0 :: distances.drop (i + 1) := by
      rw [List.drop_eq_getElem_cons hi]
      simp [List.getD_eq_getElem?_getD, List.getElem?_eq_getElem hi]
    have ih1 := fun calls1 => ih (i + 1) calls1 (by omega)
    unfold OCCSolid.chamferLoop
    rw [hdrop]
    by_cases hd : K.Degenerated edge = true
    · simp [hd, ih1, Kernel.eligible]
    · by_cases hc : K.IsClosed edge (K.FindFromKey_First solid edge) = true
      · simp [hd, hc, ih1, Kernel.eligible]
      · by_cases h1 : distances.length = 1
        · have hi0 : i = 0 := by omega
          have hrest : rest = [] := List.length_eq_zero.mp (by omega)
          subst hi0 hrest
          simp [hd, hc, Kernel.eligible, h1, OCCSolid.chamferLoop]
        · simp [hd, hc, ih1, Kernel.eligible, h1]

/-- C7 (counterexample): three edges are supplied, the first degenerated, so
two are eligible, and two values are given, one per eligible edge. Neither
fillet nor chamfer binds them: both return 1 without any kernel call. -/
theorem perElement_postfilter_counterexample :
    ([sampleDegenerated, sampleEdge 1, sampleEdge 2].filter
        (sampleKernel.eligible sampleBody)).length = [(5 : Standard_Real), 7].length ∧
      (OCCSolid.mk sampleBody).fillet sampleKernel [sampleDegenerated, sampleEdge 1, sampleEdge 2] [5, 7]
        = Run.mk (.returned 1) (OCCSolid.mk sampleBody) [] ∧
      (OCCSolid.mk sampleBody).chamfer sampleKernel [sampleDegenerated, sampleEdge 1, sampleEdge 2] [5, 7]
        = Run.mk (.returned 1) (OCCSolid.mk sampleBody) [] := by
  decide

/-- C7 (amended): per-edge policy. For every list of `M` supplied edges and
every parameter list of length `M`, fillet and chamfer bind every eligible
edge: the edge at input position `i`, when eligible, is registered with
`values[i]`, in input order; an excluded edge receives no call and keeps its
own slot of the parameter list. The build call follows. -/
theorem fillet_chamfer_perEdge (K : Kernel) (self : OCCSolid) (edges : List TopoDS_Shape)
    (values : List Standard_Real) (hlen : values.length = edges.length) :
    (self.fillet K edges values).calls =
        ((edges.zip values).filter (fun p => K.eligible self.solid p.1)).map
          (fun p => KernelCall.MakeFillet_Add p.2 p.1) ++ [.Build] ∧
      (self.chamfer K edges values).calls =
        ((edges.zip values).filter (fun p => K.eligible self.solid p.1)).map
          (fun p => KernelCall.MakeChamfer_Add p.2 p.1 (K.FindFromKey_First self.solid p.1))
          ++ [.Build] := by
  have hf := OCCSolid.filletLoop_perEdge K self.solid values edges 0 [] (by omega)
  have hc := OCCSolid.chamferLoop_perEdge K self.solid values edges 0 [] (by omega)
  rw [hlen] at hf hc
  constructor
  · simp [OCCSolid.fillet, hf, OCCSolid.commitBuilt_calls]
  · simp [OCCSolid.chamfer, hc, OCCSolid.commitBuilt_calls]

/-- C7 (witness): three edges, the first degenerated, with three values: the
second and third edges are registered with the second and third values. -/
theorem fillet_chamfer_perEdge_witness :
    [(4 : Standard_Real), 5, 7].length = [sampleDegenerated, sampleEdge 1, sampleEdge 2].length ∧
      (((OCCSolid.mk sampleBody).fillet sampleKernel
          [sampleDegenerated, sampleEdge 1, sampleEdge 2] [4, 5, 7]).calls =
          [.MakeFillet_Add 5 (sampleEdge 1), .MakeFillet_Add 7 (sampleEdge 2), .Build] ∧
        ((OCCSolid.mk sampleBody).chamfer sampleKernel
          [sampleDegenerated, sampleEdge 1, sampleEdge 2] [4, 5, 7]).calls =
          [.MakeChamfer_Add 5 (sampleEdge 1) sampleFace,
            .MakeChamfer_Add 7 (sampleEdge 2) sampleFace, .Build]) :=
  ⟨rfl, fillet_chamfer_perEdge sampleKernel (OCCSolid.mk sampleBody)
    [sampleDegenerated, sampleEdge 1, sampleEdge 2] [4, 5, 7] rfl⟩

/-- With two radii per supplied edge and every remaining edge eligible, the
fillet loop runs to its end: the edge at input position `i` is added with the
pair `(radius[2i], radius[2i+1])`. -/
theorem OCCSolid.filletLoop_paired (K : Kernel) (solid : TopoDS_Shape) (n : Nat)
    (radius : List Standard_Real) (hn : 1 ≤ n) (hlen : radius.length = 2 * n)
    (rest : List TopoDS_Shape) :
    ∀ (i : Nat) (calls : List KernelCall), (∀ e ∈ rest, K.eligible solid e = true) →
      OCCSolid.filletLoop K solid n radius i rest calls =
        (none, calls ++ (rest.enumFrom i).map
          (fun p => KernelCall.MakeFillet_Add2 (radius.getD (2 * p.1) 0) (radius.getD (2 * p.1 + 1) 0) p.2)) := by
  induction rest with
  | nil => intro i calls _; simp [OCCSolid.filletLoop]
  | cons edge rest ih =>
    intro i calls hel
    have he := hel edge (by simp)
    simp only [Kernel.eligible, Bool.and_eq_true, Bool.not_eq_true', Bool.not_eq_eq_eq_not,
      Bool.not_true] at he
    have ih1 := fun calls1 => ih (i + 1) calls1 (fun e h => hel e (by simp [h]))
    have h1 : ¬ 2 * n = 1 := by omega
    have h2 : ¬ 2 * n = n := by omega
    unfold OCCSolid.filletLoop
    simp [he.1, he.2, h1, h2, hlen, ih1, List.enumFrom_cons]

/-- C8: paired policy. For every `N ≥ 1`, every list of `N` eligible edges and
every parameter list `v` of length `2N`, fillet registers the edge at position
`i` with the pair `(v[2i], v[2i+1])`, for `i = 0 .. N-1` in order: `N` paired
bindings, followed by the build call. -/
theorem fillet_paired (K : Kernel) (self : OCCSolid) (edges : List TopoDS_Shape)
    (v : List Standard_Real) (hN : 1 ≤ edges.length)
    (hel : ∀ e ∈ edges, K.eligible self.solid e = true)
    (hlen : v.length = 2 * edges.length) :
    (self.fillet K edges v).calls =
      edges.enum.map (fun p =>
        KernelCall.MakeFillet_Add2 (v.getD (2 * p.1) 0) (v.getD (2 * p.1 + 1) 0) p.2) ++ [.Build] := by
  have h := OCCSolid.filletLoop_paired K self.solid edges.length v hN hlen edges 0 [] hel
  simp [OCCSolid.fillet, h, OCCSolid.commitBuilt_calls, List.enum]

/-- C8 (witness): two eligible edges with four radii are registered with the
pairs `(10, 11)` and `(20, 21)`. -/
theorem fillet_paired_witness :
    (1 ≤ [sampleEdge 1, sampleEdge 2].length ∧
      (∀ e ∈ [sampleEdge 1, sampleEdge 2], sampleKernel.eligible sampleBody e = true) ∧
      [(10 : Standard_Real), 11, 20, 21].length = 2 * [sampleEdge 1, sampleEdge 2].length) ∧
      ((OCCSolid.mk sampleBody).fillet sampleKernel [sampleEdge 1, sampleEdge 2] [10, 11, 20, 21]).calls
        = [.MakeFillet_Add2 10 11 (sampleEdge 1), .MakeFillet_Add2 20 21 (sampleEdge 2), .Build] :=
  ⟨⟨by decide, by decide, by decide⟩,
    fillet_paired sampleKernel (OCCSolid.mk sampleBody) [sampleEdge 1, sampleEdge 2] [10, 11, 20, 21]
      (by decide) (by decide) (by decide)⟩

/-- When the number of radii is none of `1`, `edges_size`, `2*edges_size`, the
fillet loop returns 1 at its first eligible edge, having added nothing. -/
theorem OCCSolid.filletLoop_mismatch (K : Kernel) (solid : TopoDS_Shape) (n : Nat)
    (radius : List Standard_Real) (h1 : radius.length ≠ 1) (h2 : radius.length ≠ n)
    (h3 : radius.length ≠ 2 * n) (rest : List TopoDS_Shape) :
    ∀ (i : Nat) (calls : List KernelCall), (∃ e ∈ rest, K.eligible solid e = true) →
      OCCSolid.filletLoop K solid n radius i rest calls = (some 1, calls) := by
  induction rest with
  | nil => intro i calls h; simp at h
  | cons edge rest ih =>
    intro i calls hex
    unfold OCCSolid.filletLoop
    by_cases he : K.eligible solid edge = true
    · simp only [Kernel.eligible, Bool.and_eq_true, Bool.not_eq_true', Bool.not_eq_eq_eq_not,
        Bool.not_true] at he
      simp [he.1, he.2, h1, h2, h3]
    · have hex1 : ∃ e ∈ rest, K.eligible solid e = true := by
        obtain ⟨e, hmem, hee⟩ := hex
        rcases List.mem_cons.mp hmem with h | h
        · subst h; exact absurd hee he
        · exact ⟨e, h, hee⟩
      have ih1 := fun calls1 => ih (i + 1) calls1 hex1
      by_cases hd : K.Degenerated edge = true
      · simp [hd, ih1]
      · have hc : K.IsClosed edge (K.FindFromKey_First solid edge) = true := by
          simp only [Kernel.eligible, Bool.and_eq_true, Bool.not_eq_true', Bool.not_eq_eq_eq_not,
            Bool.not_true, not_and, Bool.not_eq_false] at he
          simp only [Bool.not_eq_true] at hd
          exact he hd
        simp [hd, hc, ih1]

/-- C9 (counterexample): with three supplied edges of which two are eligible,
three radii match none of `1`, `N = 2`, `2N = 4`, yet fillet registers the two
eligible edges and runs the kernel build; and with no edge at all, three radii
match none of `1`, `0`, `0`, yet fillet still runs the kernel build. -/
theorem fillet_mismatch_counterexample :
    (([sampleDegenerated, sampleEdge 1, sampleEdge 2].filter
        (sampleKernel.eligible sampleBody)).length = 2 ∧
      ((OCCSolid.mk sampleBody).fillet sampleKernel
          [sampleDegenerated, sampleEdge 1, sampleEdge 2] [4, 5, 7]).calls
        = [.MakeFillet_Add 5 (sampleEdge 1), .MakeFillet_Add 7 (sampleEdge 2), .Build]) ∧
      ((OCCSolid.mk sampleBody).fillet sampleKernel [] [4, 5, 7]).calls = [.Build] := by
  decide

/-- C9 (amended): for every edge list holding at least one eligible edge and
every parameter list whose length is none of `1`, `M`, `2M`, with `M` the
number of supplied edges, fillet returns 1 without any registration call and
without the build call, and the shape of the entity is unchanged. -/
theorem fillet_mismatch_fails (K : Kernel) (self : OCCSolid) (edges : List TopoDS_Shape)
    (radius : List Standard_Real) (hex : ∃ e ∈ edges, K.eligible self.solid e = true)
    (h1 : radius.length ≠ 1) (h2 : radius.length ≠ edges.length)
    (h3 : radius.length ≠ 2 * edges.length) :
    self.fillet K edges radius = Run.mk (.returned 1) self [] := by
  have h := OCCSolid.filletLoop_mismatch K self.solid edges.length radius h1 h2 h3 edges 0 [] hex
  simp [OCCSolid.fillet, h]

/-- C9 (witness): three edges, two of them eligible, with two radii: fillet
returns 1 with no kernel call and the shape as before. -/
theorem fillet_mismatch_fails_witness :
    ((∃ e ∈ [sampleDegenerated, sampleEdge 1, sampleEdge 2],
        sampleKernel.eligible sampleBody e = true) ∧
      [(5 : Standard_Real), 7].length ≠ 1 ∧
      [(5 : Standard_Real), 7].length ≠ [sampleDegenerated, sampleEdge 1, sampleEdge 2].length ∧
      [(5 : Standard_Real), 7].length ≠ 2 * [sampleDegenerated, sampleEdge 1, sampleEdge 2].length) ∧
      (OCCSolid.mk sampleBody).fillet sampleKernel [sampleDegenerated, sampleEdge 1, sampleEdge 2] [5, 7]
        = Run.mk (.returned 1) (OCCSolid.mk sampleBody) [] :=
  ⟨⟨by decide, by decide, by decide, by decide⟩,
    fillet_mismatch_fails sampleKernel (OCCSolid.mk sampleBody)
      [sampleDegenerated, sampleEdge 1, sampleEdge 2] [5, 7] (by decide) (by decide) (by decide)
      (by decide)⟩

/-! ## The validity gate -/

/-- On a non-null handle `setShape` raises nothing. -/
theorem OCCSolid.setShape_ok (self : OCCSolid) (shape : TopoDS_Shape) (h : shape.IsNull = false) :
    ∃ self1, self.setShape shape = .ok self1 := by
  cases shape with
  | null => simp [TopoDS_Shape.IsNull] at h
  | mk type tshape subs =>
    unfold OCCSolid.setShape
    simp only [TopoDS_Shape.ShapeType]
    split
    · exact ⟨_, rfl⟩
    · split
      · exact ⟨_, rfl⟩
      · exact ⟨_, rfl⟩

/-- The shared tail reports success exactly when the build is done, its shape
is not null and the analyzer finds it valid. -/
theorem OCCSolid.commitBuilt_success_iff (K : Kernel) (self : OCCSolid) (built : BuildOutcome)
    (calls : List KernelCall) :
    (OCCSolid.commitBuilt K self built calls).status = .returned 0 ↔
      ∃ tmp, built = .done tmp ∧ tmp.IsNull = false ∧ K.BRepCheck_Analyzer_IsValid tmp = true := by
  cases built with
  | raised => simp [OCCSolid.commitBuilt]
  | notDone => simp [OCCSolid.commitBuilt]
  | done tmp =>
    by_cases hn : tmp.IsNull = true
    · simp [OCCSolid.commitBuilt, hn]
    · by_cases hv : K.BRepCheck_Analyzer_IsValid tmp = true
      · obtain ⟨self1, h1⟩ := OCCSolid.setShape_ok self tmp (by simpa using hn)
        simp [OCCSolid.commitBuilt, hn, hv, h1]
      · simp [OCCSolid.commitBuilt, hn, hv]

/-- When the shared tail reports success, the entity holds what `setShape`
makes of the built shape. -/
theorem OCCSolid.commitBuilt_after (K : Kernel) (self : OCCSolid) (tmp : TopoDS_Shape)
    (calls : List KernelCall)
    (h : (OCCSolid.commitBuilt K self (.done tmp) calls).status = .returned 0) :
    self.setShape tmp = .ok (OCCSolid.commitBuilt K self (.done tmp) calls).after := by
  by_cases hn : tmp.IsNull = true
  · simp [OCCSolid.commitBuilt, hn] at h
  · by_cases hv : K.BRepCheck_Analyzer_IsValid tmp = true
    · obtain ⟨self1, h1⟩ := OCCSolid.setShape_ok self tmp (by simpa using hn)
      simp [OCCSolid.commitBuilt, hn, hv, h1]
    · simp [OCCSolid.commitBuilt, hn, hv] at h

/-- C10: validity gate. Once the binding loop has run to its end, fillet and
chamfer, and shell in every case, report success if and only if the kernel
build reports done, the built shape is not null and the analyzer reports it
valid; and on success the new shape of the entity is `setShape` of the built
shape. -/
theorem gate_commit_rule (K : Kernel) (self : OCCSolid) (fedges cedges faces : List TopoDS_Shape)
    (radius distances : List Standard_Real) (offset tolerance : Standard_Real)
    (fcalls ccalls : List KernelCall)
    (hf : OCCSolid.filletLoop K self.solid fedges.length radius 0 fedges [] = (none, fcalls))
    (hc : OCCSolid.chamferLoop K self.solid cedges.length distances 0 cedges [] = (none, ccalls)) :
    (((self.fillet K fedges radius).status = .returned 0 ↔
        ∃ tmp, K.MakeFillet_Build self.solid fcalls = .done tmp ∧ tmp.IsNull = false ∧
          K.BRepCheck_Analyzer_IsValid tmp = true) ∧
      (∀ tmp, K.MakeFillet_Build self.solid fcalls = .done tmp →
        (self.fillet K fedges radius).status = .returned 0 →
        self.setShape tmp = .ok (self.fillet K fedges radius).after)) ∧
    (((self.chamfer K cedges distances).status = .returned 0 ↔
        ∃ tmp, K.MakeChamfer_Build self.solid ccalls = .done tmp ∧ tmp.IsNull = false ∧
          K.BRepCheck_Analyzer_IsValid tmp = true) ∧
      (∀ tmp, K.MakeChamfer_Build self.solid ccalls = .done tmp →
        (self.chamfer K cedges distances).status = .returned 0 →
        self.setShape tmp = .ok (self.chamfer K cedges distances).after)) ∧
    (((self.shell K faces offset tolerance).status = .returned 0 ↔
        ∃ tmp, K.MakeThickSolid_Build self.solid faces offset tolerance = .done tmp ∧
          tmp.IsNull = false ∧ K.BRepCheck_Analyzer_IsValid tmp = true) ∧
      (∀ tmp, K.MakeThickSolid_Build self.solid faces offset tolerance = .done tmp →
        (self.shell K faces offset tolerance).status = .returned 0 →
        self.setShape tmp = .ok (self.shell K faces offset tolerance).after)) := by
  have hfillet : self.fillet K fedges radius =
      OCCSolid.commitBuilt K self (K.MakeFillet_Build self.solid fcalls) (fcalls ++ [.Build]) := by
    simp [OCCSolid.fillet, hf]
  have hchamfer : self.chamfer K cedges distances =
      OCCSolid.commitBuilt K self (K.MakeChamfer_Build self.solid ccalls) (ccalls ++ [.Build]) := by
    simp [OCCSolid.chamfer, hc]
  have hfaces : ∀ (l acc : List TopoDS_Shape),
      l.foldl (fun l face => l ++ [face]) acc = acc ++ l := by
    intro l
    induction l with
    | nil => intro acc; simp
    | cons a rest ih => intro acc; simp [ih]
  have hshell : self.shell K faces offset tolerance =
      OCCSolid.commitBuilt K self (K.MakeThickSolid_Build self.solid faces offset tolerance)
        [.Build] := by
    simp [OCCSolid.shell, hfaces]
  rw [hfillet, hchamfer, hshell]
  refine ⟨⟨OCCSolid.commitBuilt_success_iff _ _ _ _, ?_⟩,
    ⟨OCCSolid.commitBuilt_success_iff _ _ _ _, ?_⟩,
    ⟨OCCSolid.commitBuilt_success_iff _ _ _ _, ?_⟩⟩
  · intro tmp hb hs
    rw [hb] at hs ⊢
    exact OCCSolid.commitBuilt_after K self tmp _ hs
  · intro tmp hb hs
    rw [hb] at hs ⊢
    exact OCCSolid.commitBuilt_after K self tmp _ hs
  · intro tmp hb hs
    rw [hb] at hs ⊢
    exact OCCSolid.commitBuilt_after K self tmp _ hs

/-- C10 (witness): a fillet of one edge with one radius on the sample body,
whose build is done, non-null and valid, reports success and stores what
`setShape` makes of the compound the kernel built. -/
theorem gate_commit_rule_witness :
    (OCCSolid.filletLoop sampleKernel sampleBody 1 [5] 0 [sampleEdge 1] []
        = (none, [.MakeFillet_Add 5 (sampleEdge 1)]) ∧
      OCCSolid.chamferLoop sampleKernel sampleBody 1 [5] 0 [sampleEdge 1] []
        = (none, [.MakeChamfer_Add 5 (sampleEdge 1) sampleFace])) ∧
      ((OCCSolid.mk sampleBody).fillet sampleKernel [sampleEdge 1] [5]).status = .returned 0 ∧
      (OCCSolid.mk sampleBody).setShape (.mk .COMPOUND 8 [sampleBody])
        = .ok ((OCCSolid.mk sampleBody).fillet sampleKernel [sampleEdge 1] [5]).after :=
  ⟨⟨rfl, rfl⟩,
    ((gate_commit_rule sampleKernel (OCCSolid.mk sampleBody) [sampleEdge 1] [sampleEdge 1]
      [sampleFace] [5] [5] 1 0
      [.MakeFillet_Add 5 (sampleEdge 1)] [.MakeChamfer_Add 5 (sampleEdge 1) sampleFace]
      rfl rfl).1.1).mpr ⟨.mk .COMPOUND 8 [sampleBody], rfl, rfl, rfl⟩,
    (gate_commit_rule sampleKernel (OCCSolid.mk sampleBody) [sampleEdge 1] [sampleEdge 1]
      [sampleFace] [5] [5] 1 0
      [.MakeFillet_Add 5 (sampleEdge 1)] [.MakeChamfer_Add 5 (sampleEdge 1) sampleFace]
      rfl rfl).1.2 (.mk .COMPOUND 8 [sampleBody]) rfl rfl⟩


/-! ## Failure leaves the shape as it was -/

/-- When the shared tail of the feature operations does not report success,
the entity is as it was. -/
theorem OCCSolid.commitBuilt_keeps (K : Kernel) (self : OCCSolid) (built : BuildOutcome)
    (calls : List KernelCall)
    (h : (OCCSolid.commitBuilt K self built calls).status ≠ .returned 0) :
    (OCCSolid.commitBuilt K self built calls).after = self := by
  cases built with
  | raised => rfl
  | notDone => rfl
  | done tmp =>
    by_cases hn : tmp.IsNull = true
    · simp [OCCSolid.commitBuilt, hn]
    · by_cases hv : K.BRepCheck_Analyzer_IsValid tmp = true
      · obtain ⟨self1, h1⟩ := OCCSolid.setShape_ok self tmp (by simpa using hn)
        simp [OCCSolid.commitBuilt, hn, hv, h1] at h
      · simp [OCCSolid.commitBuilt, hn, hv]

/-- A fillet that does not report success leaves the entity as it was. -/
theorem OCCSolid.fillet_keeps (K : Kernel) (self : OCCSolid) (edges : List TopoDS_Shape)
    (radius : List Standard_Real) (h : (self.fillet K edges radius).status ≠ .returned 0) :
    (self.fillet K edges radius).after = self := by
  unfold OCCSolid.fillet at h ⊢
  split
  · rfl
  · rename_i calls hloop
    rw [hloop] at h
    exact OCCSolid.commitBuilt_keeps K self _ _ h

/-- A chamfer that does not report success leaves the entity as it was. -/
theorem OCCSolid.chamfer_keeps (K : Kernel) (self : OCCSolid) (edges : List TopoDS_Shape)
    (distances : List Standard_Real) (h : (self.chamfer K edges distances).status ≠ .returned 0) :
    (self.chamfer K edges distances).after = self := by
  unfold OCCSolid.chamfer at h ⊢
  split
  · rfl
  · rename_i calls hloop
    rw [hloop] at h
    exact OCCSolid.commitBuilt_keeps K self _ _ h

/-- C11: feature-operation atomicity. Every call of fillet, chamfer or shell
that does not report success (it returns 1 on a parameter mismatch, an
incomplete build, a null result or an invalid candidate, or a kernel failure
leaves it) ends with the shape of the entity identical to the shape before the
call. -/
theorem feature_failure_keeps_shape (K : Kernel) (self : OCCSolid)
    (edges faces : List TopoDS_Shape) (radius distances : List Standard_Real)
    (offset tolerance : Standard_Real) :
    ((self.fillet K edges radius).status ≠ .returned 0 →
        (self.fillet K edges radius).after = self) ∧
      ((self.chamfer K edges distances).status ≠ .returned 0 →
        (self.chamfer K edges distances).after = self) ∧
      ((self.shell K faces offset tolerance).status ≠ .returned 0 →
        (self.shell K faces offset tolerance).after = self) :=
  ⟨OCCSolid.fillet_keeps K self edges radius, OCCSolid.chamfer_keeps K self edges distances,
    fun h => OCCSolid.commitBuilt_keeps K self _ _ h⟩

/-- C11 (witness): a fillet of three edges with two radii returns 1, a chamfer
with no edge returns 1 because its build is not done, and a shell whose build
raises does not succeed; each leaves the sample body in place. -/
theorem feature_failure_keeps_shape_witness :
    (((OCCSolid.mk sampleBody).fillet sampleKernel
          [sampleDegenerated, sampleEdge 1, sampleEdge 2] [5, 7]).status ≠ .returned 0 ∧
      ((OCCSolid.mk sampleBody).chamfer sampleKernel [] [5]).status ≠ .returned 0 ∧
      ((OCCSolid.mk sampleBody).shell raisingKernel [sampleFace] 1 0).status ≠ .returned 0) ∧
    ((OCCSolid.mk sampleBody).fillet sampleKernel
          [sampleDegenerated, sampleEdge 1, sampleEdge 2] [5, 7]).after = OCCSolid.mk sampleBody ∧
    ((OCCSolid.mk sampleBody).chamfer sampleKernel [] [5]).after = OCCSolid.mk sampleBody ∧
    ((OCCSolid.mk sampleBody).shell raisingKernel [sampleFace] 1 0).after = OCCSolid.mk sampleBody :=
  ⟨⟨by decide, by decide, by decide⟩,
    (feature_failure_keeps_shape sampleKernel (OCCSolid.mk sampleBody)
      [sampleDegenerated, sampleEdge 1, sampleEdge 2] [sampleFace] [5, 7] [5] 1 0).1 (by decide),
    (feature_failure_keeps_shape sampleKernel (OCCSolid.mk sampleBody)
      [] [sampleFace] [5, 7] [5] 1 0).2.1 (by decide),
    (feature_failure_keeps_shape raisingKernel (OCCSolid.mk sampleBody)
      [] [sampleFace] [5, 7] [5] 1 0).2.2 (by decide)⟩

/-! ## Kernel failures at the public surface -/

/-- C12 (evaluation at the failing input): with a kernel whose fillet, chamfer
and thick-solid builds raise, fillet, chamfer and shell end with the failure
uncaught, whereas fuse, whose builder raises as well, catches it and
returns 1. -/
theorem feature_build_failure_propagates :
    ((OCCSolid.mk sampleBody).fillet raisingKernel [sampleEdge 1] [5]).status = .raised ∧
      ((OCCSolid.mk sampleBody).chamfer raisingKernel [sampleEdge 1] [5]).status = .raised ∧
      ((OCCSolid.mk sampleBody).shell raisingKernel [sampleFace] 1 0).status = .raised ∧
      ((OCCSolid.mk sampleBody).fuse sampleBuildKernel (OCCSolid.mk (sampleSolid 4))).status
        = .returned 1 := by
  decide

/-! ## Healing -/

/-- C13: for every shape and every tolerance, heal called with all five toggles
false is a no-op: the entity is unmodified and no kernel repair routine is
invoked. -/
theorem heal_all_false_noop (K : Kernel) (R : RepairKernel) (self : OCCSolid)
    (tolerance : Standard_Real) :
    self.heal K R tolerance false false false false false = HealRun.mk self [] := by
  simp [OCCSolid.heal]

/-- Recording a removal for each degenerated edge found is the same as keeping
the degenerated edges and recording a removal for each. -/
theorem HealingPipeline.removals_eq (K : Kernel) (edges : List TopoDS_Shape) :
    (edges.filter K.Degenerated).map ReShapeRequest.Remove =
      edges.filterMap
        (fun edge => if K.Degenerated edge then some (ReShapeRequest.Remove edge) else none) := by
  induction edges with
  | nil => rfl
  | cons edge rest ih =>
    by_cases hd : K.Degenerated edge = true
    · simp [List.filter_cons, List.filterMap_cons, hd, ih]
    · simp [List.filter_cons, List.filterMap_cons, hd, ih]

/-- The block that removes the degenerated edges strips the degenerate edges. -/
theorem OCCSolid.heal.removeDegenerated_solid (K : Kernel) (R : RepairKernel) (st : HealState) :
    (OCCSolid.heal.removeDegenerated K R st).solid =
      HealingPipeline.stripDegenerateEdges K R st.solid := by
  simp only [OCCSolid.heal.removeDegenerated, HealingPipeline.stripDegenerateEdges,
    HealingPipeline.removals_eq]

/-- The replacements the face block records are those of the face pass. -/
theorem HealingPipeline.faceReplacements_eq (R : RepairKernel) (faces : List TopoDS_Shape) :
    faces.filterMap (fun face =>
        (R.ShapeFix_Face face).map (fun newface => ReShapeRequest.Replace face newface)) =
      HealingPipeline.faceReplacements R faces := by
  induction faces with
  | nil => rfl
  | cons face rest ih =>
    cases h : R.ShapeFix_Face face with
    | none => simp [List.filterMap_cons, HealingPipeline.faceReplacements, h, ih]
    | some fixed => simp [List.filterMap_cons, HealingPipeline.faceReplacements, h, ih]

/-- The face block replaces the faces a fix applied to. -/
theorem OCCSolid.heal.fixFaces_solid (R : RepairKernel) (st : HealState) :
    (OCCSolid.heal.fixFaces R st).solid =
      R.ReShape_Apply st.solid
        (HealingPipeline.faceReplacements R (TopExp_Explorer .FACE st.solid)) .SHAPE := by
  simp only [OCCSolid.heal.fixFaces, HealingPipeline.faceReplacements_eq]

/-- The replacements the wire block records for the wires of one face. -/
theorem HealingPipeline.wireReplacements_eq (R : RepairKernel) (tolerance : Standard_Real)
    (face : TopoDS_Shape) (wires : List TopoDS_Shape) :
    (wires.map (fun oldwire => (oldwire, face))).filterMap (fun p =>
        (R.ShapeFix_Wire p.1 p.2 tolerance).map
          (fun newwire => ReShapeRequest.Replace p.1 newwire)) =
      HealingPipeline.wireReplacements R tolerance face wires := by
  induction wires with
  | nil => rfl
  | cons wire rest ih =>
    cases h : R.ShapeFix_Wire wire face tolerance with
    | none => simp [List.filterMap_cons, HealingPipeline.wireReplacements, h, ih]
    | some fixed => simp [List.filterMap_cons, HealingPipeline.wireReplacements, h, ih]

/-- The replacements the wire block records over all faces. -/
theorem HealingPipeline.faceWireReplacements_eq (R : RepairKernel) (tolerance : Standard_Real)
    (faces : List TopoDS_Shape) :
    (faces.flatMap (fun face =>
        (TopExp_Explorer .WIRE face).map (fun oldwire => (oldwire, face)))).filterMap (fun p =>
        (R.ShapeFix_Wire p.1 p.2 tolerance).map
          (fun newwire => ReShapeRequest.Replace p.1 newwire)) =
      HealingPipeline.faceWireReplacements R tolerance faces := by
  induction faces with
  | nil => rfl
  | cons face rest ih =>
    rw [List.flatMap_cons, List.filterMap_append, ih, HealingPipeline.wireReplacements_eq]
    rfl

/-- The wire block replaces the wires a fix applied to. -/
theorem OCCSolid.heal.fixWires_solid (R : RepairKernel) (tolerance : Standard_Real)
    (st : HealState) :
    (OCCSolid.heal.fixWires R tolerance st).solid =
      R.ReShape_Apply st.solid
        (HealingPipeline.faceWireReplacements R tolerance (TopExp_Explorer .FACE st.solid))
        .SHAPE := by
  simp only [OCCSolid.heal.fixWires, HealingPipeline.faceWireReplacements_eq]

/-- The sewing block is the face-sewing stage: a null sewn shape keeps the
prior shape. -/
theorem OCCSolid.heal.sewFaces_solid (R : RepairKernel) (tolerance : Standard_Real)
    (st : HealState) :
    (OCCSolid.heal.sewFaces R tolerance st).solid =
      HealingPipeline.faceSewing R tolerance st.solid := by
  unfold OCCSolid.heal.sewFaces HealingPipeline.faceSewing
  cases h : R.Sewing tolerance (TopExp_Explorer .FACE st.solid) with
  | null => simp [TopoDS_Shape.IsNull]
  | mk type tshape subs => simp [TopoDS_Shape.IsNull]

/-- The orientation loop of the solid block orients the solids one after the
other. -/
theorem HealingPipeline.orientSolids_eq (R : RepairKernel) (solids : List TopoDS_Shape) :
    ∀ st : HealState,
      (solids.foldl (fun (cur_st : HealState) cur =>
        (HealState.mk
          (R.ReShape_Apply cur_st.solid [.Replace cur (R.OrientClosedSolid cur)] .COMPSOLID)
          (cur_st.calls ++ [.OrientClosedSolid, .ReShape_Apply]))) st).solid =
        HealingPipeline.orientSolids R solids st.solid := by
  induction solids with
  | nil => intro st; rfl
  | cons solid rest ih =>
    intro st
    simp only [List.foldl_cons, HealingPipeline.orientSolids]
    exact ih _

/-- The solid block is the solid-reconstruction stage. -/
theorem OCCSolid.heal.makeSolids_solid (R : RepairKernel) (tolerance : Standard_Real)
    (st : HealState) :
    (OCCSolid.heal.makeSolids R tolerance st).solid =
      HealingPipeline.solidReconstruction R tolerance st.solid := by
  unfold OCCSolid.heal.makeSolids HealingPipeline.solidReconstruction
  cases hs : TopExp_Explorer .SHELL st.solid with
  | nil => simp
  | cons shell shells =>
    cases hv : R.BRepCheck_Analyzer_IsValid (R.MakeSolid (shell :: shells)) with
    | false => simp [hv]
    | true =>
      simp only [List.length_cons, ne_eq, Nat.add_one_ne_zero, not_false_eq_true, if_true, hv]
      exact HealingPipeline.orientSolids_eq R _ _

/-- With at least one toggle set, the shape heal leaves is the shape the
composition of the stages gives. -/
theorem OCCSolid.heal_solid (K : Kernel) (R : RepairKernel) (self : OCCSolid)
    (cfg : HealingConfig)
    (h : cfg.fixDegenerate = true ∨ cfg.fixSmallEdges = true ∨ cfg.fixSpotStripFaces = true ∨
      cfg.sewFaces = true ∨ cfg.makeSolids = true) :
    (self.heal K R cfg.tolerance cfg.fixDegenerate cfg.fixSmallEdges cfg.fixSpotStripFaces
        cfg.sewFaces cfg.makeSolids).after =
      OCCSolid.mk (HealingPipeline.run K R cfg self.solid) := by
  obtain ⟨a, b, c, d, e, tol⟩ := cfg
  simp only at h
  cases a <;> cases b <;> cases c <;> cases d <;> cases e <;>
    first
    | (simp at h; done)
    | simp [OCCSolid.heal, HealingPipeline.run, HealingPipeline.stages,
        HealingPipeline.degenerateRemoval, HealingPipeline.smallEdgeRepair,
        HealingPipeline.spotStripRemoval, HealingPipeline.degenerateCleanup,
        OCCSolid.heal.removeDegenerated_solid, OCCSolid.heal.fixFaces_solid,
        OCCSolid.heal.fixWires_solid, OCCSolid.heal.sewFaces_solid,
        OCCSolid.heal.makeSolids_solid, OCCSolid.heal.fixWireframe,
        OCCSolid.heal.fixSmallFace]

/-- The block that removes the degenerated edges invokes the re-shape only. -/
theorem OCCSolid.heal.removeDegenerated_calls (K : Kernel) (R : RepairKernel)
    (P : RepairCall → Prop) (h0 : P .ReShape_Apply) (st : HealState)
    (h : ∀ call ∈ st.calls, P call) :
    ∀ call ∈ (OCCSolid.heal.removeDegenerated K R st).calls, P call := by
  intro call hc
  simp only [OCCSolid.heal.removeDegenerated, List.mem_append, List.mem_singleton] at hc
  rcases hc with hc | hc
  · exact h call hc
  · rw [hc]; exact h0

/-- The face block invokes the face fix and the re-shape only. -/
theorem OCCSolid.heal.fixFaces_calls (R : RepairKernel)
    (P : RepairCall → Prop) (h0 : P .ReShape_Apply) (h1 : P .ShapeFix_Face) (st : HealState)
    (h : ∀ call ∈ st.calls, P call) :
    ∀ call ∈ (OCCSolid.heal.fixFaces R st).calls, P call := by
  intro call hc
  simp only [OCCSolid.heal.fixFaces, List.mem_append, List.mem_singleton, List.mem_map] at hc
  rcases hc with (hc | ⟨_, _, hc⟩) | hc
  · exact h call hc
  · rw [← hc]; exact h1
  · rw [hc]; exact h0

/-- The wire block invokes the wire fix and the re-shape only. -/
theorem OCCSolid.heal.fixWires_calls (R : RepairKernel) (tolerance : Standard_Real)
    (P : RepairCall → Prop) (h0 : P .ReShape_Apply) (h1 : P .ShapeFix_Wire) (st : HealState)
    (h : ∀ call ∈ st.calls, P call) :
    ∀ call ∈ (OCCSolid.heal.fixWires R tolerance st).calls, P call := by
  intro call hc
  simp only [OCCSolid.heal.fixWires, List.mem_append, List.mem_singleton, List.mem_map] at hc
  rcases hc with (hc | ⟨_, _, hc⟩) | hc
  · exact h call hc
  · rw [← hc]; exact h1
  · rw [hc]; exact h0

/-- The wireframe block invokes the wireframe pass only. -/
theorem OCCSolid.heal.fixWireframe_calls (R : RepairKernel) (tolerance : Standard_Real)
    (P : RepairCall → Prop) (h1 : P .ShapeFix_Wireframe) (st : HealState)
    (h : ∀ call ∈ st.calls, P call) :
    ∀ call ∈ (OCCSolid.heal.fixWireframe R tolerance st).calls, P call := by
  intro call hc
  simp only [OCCSolid.heal.fixWireframe, List.mem_append, List.mem_singleton] at hc
  rcases hc with hc | hc
  · exact h call hc
  · rw [hc]; exact h1

/-- The small-face block invokes the small-face pass only. -/
theorem OCCSolid.heal.fixSmallFace_calls (R : RepairKernel) (tolerance : Standard_Real)
    (P : RepairCall → Prop) (h1 : P .ShapeFix_FixSmallFace) (st : HealState)
    (h : ∀ call ∈ st.calls, P call) :
    ∀ call ∈ (OCCSolid.heal.fixSmallFace R tolerance st).calls, P call := by
  intro call hc
  simp only [OCCSolid.heal.fixSmallFace, List.mem_append, List.mem_singleton] at hc
  rcases hc with hc | hc
  · exact h call hc
  · rw [hc]; exact h1

/-- The sewing block invokes the sewing only. -/
theorem OCCSolid.heal.sewFaces_calls (R : RepairKernel) (tolerance : Standard_Real)
    (P : RepairCall → Prop) (h1 : P .Sewing) (st : HealState)
    (h : ∀ call ∈ st.calls, P call) :
    ∀ call ∈ (OCCSolid.heal.sewFaces R tolerance st).calls, P call := by
  intro call hc
  by_cases hn : (R.Sewing tolerance (TopExp_Explorer .FACE st.solid)).IsNull = true
  · simp only [OCCSolid.heal.sewFaces, hn, Bool.not_true, Bool.false_eq_true, if_false,
      List.mem_append, List.mem_singleton] at hc
    rcases hc with hc | hc
    · exact h call hc
    · rw [hc]; exact h1
  · simp only [Bool.not_eq_true] at hn
    simp only [OCCSolid.heal.sewFaces, hn, Bool.not_false, if_true,
      List.mem_append, List.mem_singleton] at hc
    rcases hc with hc | hc
    · exact h call hc
    · rw [hc]; exact h1

/-- The orientation loop invokes the orientation and the re-shape only. -/
theorem OCCSolid.heal.orientLoop_calls (R : RepairKernel)
    (P : RepairCall → Prop) (h0 : P .ReShape_Apply) (h1 : P .OrientClosedSolid)
    (solids : List TopoDS_Shape) :
    ∀ st : HealState, (∀ call ∈ st.calls, P call) →
      ∀ call ∈ (solids.foldl (fun (cur_st : HealState) cur =>
        (HealState.mk
          (R.ReShape_Apply cur_st.solid [.Replace cur (R.OrientClosedSolid cur)] .COMPSOLID)
          (cur_st.calls ++ [.OrientClosedSolid, .ReShape_Apply]))) st).calls, P call := by
  induction solids with
  | nil => intro st h; exact h
  | cons solid rest ih =>
    intro st h
    simp only [List.foldl_cons]
    apply ih
    intro call hc
    simp only [List.mem_append, List.mem_cons, List.mem_singleton, List.not_mem_nil,
      or_false] at hc
    rcases hc with hc | hc | hc
    · exact h call hc
    · rw [hc]; exact h1
    · rw [hc]; exact h0

/-- The solid block invokes the solid maker, the shape fix, the orientation and
the re-shape only. -/
theorem OCCSolid.heal.makeSolids_calls (R : RepairKernel) (tolerance : Standard_Real)
    (P : RepairCall → Prop) (h0 : P .ReShape_Apply) (h1 : P .MakeSolid)
    (h2 : P .ShapeFix_Shape) (h3 : P .OrientClosedSolid) (st : HealState)
    (h : ∀ call ∈ st.calls, P call) :
    ∀ call ∈ (OCCSolid.heal.makeSolids R tolerance st).calls, P call := by
  by_cases hcount : (TopExp_Explorer .SHELL st.solid).length = 0
  · simp only [OCCSolid.heal.makeSolids, hcount, ne_eq, not_true_eq_false, if_false]
    exact h
  · by_cases hv : R.BRepCheck_Analyzer_IsValid (R.MakeSolid (TopExp_Explorer .SHELL st.solid)) = true
    · simp only [OCCSolid.heal.makeSolids, hcount, ne_eq, not_false_eq_true, if_true, hv]
      apply OCCSolid.heal.orientLoop_calls R P h0 h3
      intro call hc
      simp only [List.mem_append, List.mem_cons, List.mem_singleton, List.not_mem_nil,
        or_false] at hc
      rcases hc with hc | hc | hc
      · exact h call hc
      · rw [hc]; exact h1
      · rw [hc]; exact h2
    · simp only [OCCSolid.heal.makeSolids, hcount, ne_eq, not_false_eq_true, if_true, hv,
        Bool.false_eq_true, if_false]
      intro call hc
      simp only [List.mem_append, List.mem_singleton] at hc
      rcases hc with hc | hc
      · exact h call hc
      · rw [hc]; exact h1

/-- Every repair routine heal invokes is the re-shape or a routine of a stage
whose toggle is set. -/
theorem OCCSolid.heal_calls (K : Kernel) (R : RepairKernel) (self : OCCSolid)
    (tolerance : Standard_Real) (a b c d e : Bool) (P : RepairCall → Prop)
    (h0 : P .ReShape_Apply)
    (h1 : a = true → P .ShapeFix_Face)
    (h2 : b = true → P .ShapeFix_Wire ∧ P .ShapeFix_Wireframe)
    (h3 : c = true → P .ShapeFix_FixSmallFace)
    (h4 : d = true → P .Sewing)
    (h5 : e = true → P .MakeSolid ∧ P .ShapeFix_Shape ∧ P .OrientClosedSolid) :
    ∀ call ∈ (self.heal K R tolerance a b c d e).calls, P call := by
  cases a <;> cases b <;> cases c <;> cases d <;> cases e <;>
    simp only [OCCSolid.heal, Bool.not_true, Bool.not_false, Bool.and_true, Bool.and_false,
      Bool.false_and, Bool.true_and, Bool.and_self, if_true, if_false, Bool.false_eq_true,
      reduceIte] <;>
    repeat (first
      | exact fun _ hc => absurd hc (List.not_mem_nil _)
      | apply OCCSolid.heal.removeDegenerated_calls K R P h0
      | apply OCCSolid.heal.fixFaces_calls R P h0 (h1 rfl)
      | apply OCCSolid.heal.fixWires_calls R tolerance P h0 (h2 rfl).1
      | apply OCCSolid.heal.fixWireframe_calls R tolerance P (h2 rfl).2
      | apply OCCSolid.heal.fixSmallFace_calls R tolerance P (h3 rfl)
      | apply OCCSolid.heal.sewFaces_calls R tolerance P (h4 rfl)
      | apply OCCSolid.heal.makeSolids_calls R tolerance P h0 (h5 rfl).1 (h5 rfl).2.1 (h5 rfl).2.2)

/-- C15: for every configuration with at least one toggle set, the shape heal
leaves is the composition of the stages in their fixed order, each applied to
the output of the one before: degenerate removal and face normalization (iff
fixDegenerate), small-edge and wireframe repair (iff fixSmallEdges), spot and
strip face removal (iff fixSpotStripFaces), face sewing (iff sewFaces, keeping
the prior shape when the sewn shape is null), the degenerate-edge cleanup
(always), and solid reconstruction (iff makeSolids). A stage whose toggle is
false is skipped entirely: none of its repair routines is invoked. -/
theorem heal_is_pipeline (K : Kernel) (R : RepairKernel) (self : OCCSolid) (cfg : HealingConfig)
    (h : cfg.fixDegenerate = true ∨ cfg.fixSmallEdges = true ∨ cfg.fixSpotStripFaces = true ∨
      cfg.sewFaces = true ∨ cfg.makeSolids = true) :
    (self.heal K R cfg.tolerance cfg.fixDegenerate cfg.fixSmallEdges cfg.fixSpotStripFaces
        cfg.sewFaces cfg.makeSolids).after =
      OCCSolid.mk (HealingPipeline.run K R cfg self.solid) ∧
    (cfg.fixDegenerate = false →
      RepairCall.ShapeFix_Face ∉ (self.heal K R cfg.tolerance cfg.fixDegenerate
        cfg.fixSmallEdges cfg.fixSpotStripFaces cfg.sewFaces cfg.makeSolids).calls) ∧
    (cfg.fixSmallEdges = false →
      RepairCall.ShapeFix_Wire ∉ (self.heal K R cfg.tolerance cfg.fixDegenerate
        cfg.fixSmallEdges cfg.fixSpotStripFaces cfg.sewFaces cfg.makeSolids).calls ∧
      RepairCall.ShapeFix_Wireframe ∉ (self.heal K R cfg.tolerance cfg.fixDegenerate
        cfg.fixSmallEdges cfg.fixSpotStripFaces cfg.sewFaces cfg.makeSolids).calls) ∧
    (cfg.fixSpotStripFaces = false →
      RepairCall.ShapeFix_FixSmallFace ∉ (self.heal K R cfg.tolerance cfg.fixDegenerate
        cfg.fixSmallEdges cfg.fixSpotStripFaces cfg.sewFaces cfg.makeSolids).calls) ∧
    (cfg.sewFaces = false →
      RepairCall.Sewing ∉ (self.heal K R cfg.tolerance cfg.fixDegenerate
        cfg.fixSmallEdges cfg.fixSpotStripFaces cfg.sewFaces cfg.makeSolids).calls) ∧
    (cfg.makeSolids = false →
      RepairCall.MakeSolid ∉ (self.heal K R cfg.tolerance cfg.fixDegenerate
        cfg.fixSmallEdges cfg.fixSpotStripFaces cfg.sewFaces cfg.makeSolids).calls ∧
      RepairCall.ShapeFix_Shape ∉ (self.heal K R cfg.tolerance cfg.fixDegenerate
        cfg.fixSmallEdges cfg.fixSpotStripFaces cfg.sewFaces cfg.makeSolids).calls ∧
      RepairCall.OrientClosedSolid ∉ (self.heal K R cfg.tolerance cfg.fixDegenerate
        cfg.fixSmallEdges cfg.fixSpotStripFaces cfg.sewFaces cfg.makeSolids).calls) := by
  have avoid : ∀ tag : RepairCall, tag ≠ .ReShape_Apply →
      (cfg.fixDegenerate = true → tag ≠ .ShapeFix_Face) →
      (cfg.fixSmallEdges = true → tag ≠ .ShapeFix_Wire ∧ tag ≠ .ShapeFix_Wireframe) →
      (cfg.fixSpotStripFaces = true → tag ≠ .ShapeFix_FixSmallFace) →
      (cfg.sewFaces = true → tag ≠ .Sewing) →
      (cfg.makeSolids = true →
        tag ≠ .MakeSolid ∧ tag ≠ .ShapeFix_Shape ∧ tag ≠ .OrientClosedSolid) →
      tag ∉ (self.heal K R cfg.tolerance cfg.fixDegenerate cfg.fixSmallEdges
        cfg.fixSpotStripFaces cfg.sewFaces cfg.makeSolids).calls := by
    intro tag g0 g1 g2 g3 g4 g5 hmem
    exact OCCSolid.heal_calls K R self cfg.tolerance _ _ _ _ _ (fun call => tag ≠ call)
      g0 g1 g2 g3 g4 g5 tag hmem rfl
  refine ⟨OCCSolid.heal_solid K R self cfg h, ?_, ?_, ?_, ?_, ?_⟩
  · intro hf
    exact avoid _ (by decide) (by simp [hf]) (by simp) (by simp) (by simp) (by simp)
  · intro hf
    exact ⟨avoid _ (by decide) (by simp) (by simp [hf]) (by simp) (by simp) (by simp),
      avoid _ (by decide) (by simp) (by simp [hf]) (by simp) (by simp) (by simp)⟩
  · intro hf
    exact avoid _ (by decide) (by simp) (by simp) (by simp [hf]) (by simp) (by simp)
  · intro hf
    exact avoid _ (by decide) (by simp) (by simp) (by simp) (by simp [hf]) (by simp)
  · intro hf
    exact ⟨avoid _ (by decide) (by simp) (by simp) (by simp) (by simp) (by simp [hf]),
      avoid _ (by decide) (by simp) (by simp) (by simp) (by simp) (by simp [hf]),
      avoid _ (by decide) (by simp) (by simp) (by simp) (by simp) (by simp [hf])⟩

/-- C15 (witness): with the degenerate fix and sewing on, the one face of the
sample body is sewn into a shell, which replaces the shape and which the
cleanup keeps, and no solid is made; with sewing alone on a solid that has no
face, the sewn shape is null and the prior shape is kept. -/
theorem heal_is_pipeline_witness :
    ((HealingConfig.mk true false false true false 1).fixDegenerate = true ∨
      (HealingConfig.mk true false false true false 1).fixSmallEdges = true ∨
      (HealingConfig.mk true false false true false 1).fixSpotStripFaces = true ∨
      (HealingConfig.mk true false false true false 1).sewFaces = true ∨
      (HealingConfig.mk true false false true false 1).makeSolids = true) ∧
    ((OCCSolid.mk sampleBody).heal sampleKernel sampleRepairKernel 1
        true false false true false).after = OCCSolid.mk (.mk .SHELL 30 [sampleFace]) ∧
    RepairCall.MakeSolid ∉ ((OCCSolid.mk sampleBody).heal sampleKernel sampleRepairKernel 1
        true false false true false).calls ∧
    ((OCCSolid.mk (sampleSolid 1)).heal sampleKernel sampleRepairKernel 1
        false false false true false).after = OCCSolid.mk (sampleSolid 1) :=
  ⟨Or.inl rfl,
    (heal_is_pipeline sampleKernel sampleRepairKernel (OCCSolid.mk sampleBody)
      (HealingConfig.mk true false false true false 1) (Or.inl rfl)).1,
    ((heal_is_pipeline sampleKernel sampleRepairKernel (OCCSolid.mk sampleBody)
      (HealingConfig.mk true false false true false 1) (Or.inl rfl)).2.2.2.2.2 rfl).1,
    (heal_is_pipeline sampleKernel sampleRepairKernel (OCCSolid.mk (sampleSolid 1))
      (HealingConfig.mk false false false true false 1) (Or.inr (Or.inr (Or.inr (Or.inl rfl))))).1⟩

/-! ## Constructors and booleans -/

/-- The end of a `try` block either fails and keeps the entity, or succeeds
and stores what `setShape` makes of the shape. -/
theorem OCCSolid.trySetShape_spec (self : OCCSolid) (shape : TopoDS_Shape) :
    ((self.trySetShape shape).status ≠ .returned 0 → (self.trySetShape shape).after = self) ∧
      ((self.trySetShape shape).status = .returned 0 →
        self.setShape shape = .ok (self.trySetShape shape).after) := by
  unfold OCCSolid.trySetShape
  cases h : self.setShape shape with
  | error e => simp
  | ok self1 => simp

/-- A construction whose builder has answered either fails and keeps the
entity, or succeeds on a done build and stores what `setShape` makes of it. -/
theorem OCCSolid.tryBuilt_spec (self : OCCSolid) (built : BuildOutcome) :
    ((self.tryBuilt built).status ≠ .returned 0 → (self.tryBuilt built).after = self) ∧
      ((self.tryBuilt built).status = .returned 0 →
        ∃ shape, BuildKernel.shapeOf built = some shape ∧
          self.setShape shape = .ok (self.tryBuilt built).after) := by
  cases built with
  | raised => simp [OCCSolid.tryBuilt]
  | notDone => simp [OCCSolid.tryBuilt]
  | done shape =>
    simp only [OCCSolid.tryBuilt, BuildKernel.shapeOf]
    exact ⟨(OCCSolid.trySetShape_spec self shape).1,
      fun h => ⟨shape, rfl, (OCCSolid.trySetShape_spec self shape).2 h⟩⟩

/-- C14: construction and boolean atomicity. For createSolid, every primitive
and sweep constructor and fuse, cut and common: whenever the call reports
failure (the build is not done, sewing gives a null shape, or the kernel
raises) the shape of the entity after the call is the shape before it, and
whenever it reports success the new shape is `setShape` of the shape the kernel
handed back. -/
theorem construction_atomic (B : BuildKernel) (self : OCCSolid) (op : Construction) :
    ((self.construct B op).status ≠ .returned 0 → (self.construct B op).after = self) ∧
      ((self.construct B op).status = .returned 0 →
        ∃ shape, B.result self op = some shape ∧
          self.setShape shape = .ok (self.construct B op).after) := by
  cases op with
  | createSolid faces tolerance =>
    simp only [OCCSolid.construct, OCCSolid.createSolid, BuildKernel.result]
    cases h : B.Sewing tolerance faces with
    | error e => simp
    | ok sewed =>
      by_cases hn : sewed.IsNull = true
      · simp [hn]
      · simp only [hn, Bool.false_eq_true, if_false]
        exact ⟨(OCCSolid.trySetShape_spec self sewed).1,
          fun h => ⟨sewed, rfl, (OCCSolid.trySetShape_spec self sewed).2 h⟩⟩
  | createSphere center radius => exact OCCSolid.tryBuilt_spec self _
  | createCylinder p1 p2 radius => exact OCCSolid.tryBuilt_spec self _
  | createTorus p1 p2 radius1 radius2 => exact OCCSolid.tryBuilt_spec self _
  | createCone p1 p2 radius1 radius2 => exact OCCSolid.tryBuilt_spec self _
  | createBox p1 p2 => exact OCCSolid.tryBuilt_spec self _
  | createPrism face normal isInfinite =>
    cases isInfinite <;> exact OCCSolid.tryBuilt_spec self _
  | extrude face p1 p2 => exact OCCSolid.tryBuilt_spec self _
  | revolve face p1 p2 angle => exact OCCSolid.tryBuilt_spec self _
  | pipe face wire => exact OCCSolid.tryBuilt_spec self _
  | sweep spine profiles cornerMode => exact OCCSolid.tryBuilt_spec self _
  | loft profiles ruled tolerance =>
    simp only [OCCSolid.construct, OCCSolid.loft, BuildKernel.result]
    cases h : OCCSolid.loftSections profiles [] with
    | none => simp
    | some sections => cases ruled <;> exact OCCSolid.tryBuilt_spec self _
  | fuse tool => exact OCCSolid.tryBuilt_spec self _
  | cut tool => exact OCCSolid.tryBuilt_spec self _
  | common tool => exact OCCSolid.tryBuilt_spec self _

/-- C14 (witness): a fuse whose builder raises returns 1 and keeps the sample
body; a box whose builder is done with a compound wrapping one solid returns 0
and stores what `setShape` makes of that compound, the solid itself. -/
theorem construction_atomic_witness :
    (((OCCSolid.mk sampleBody).construct sampleBuildKernel
          (.fuse (OCCSolid.mk (sampleSolid 4)))).status ≠ .returned 0 ∧
      ((OCCSolid.mk sampleBody).construct sampleBuildKernel (.createBox [0, 0, 0] [1, 1, 1])).status
        = .returned 0) ∧
    ((OCCSolid.mk sampleBody).construct sampleBuildKernel
          (.fuse (OCCSolid.mk (sampleSolid 4)))).after = OCCSolid.mk sampleBody ∧
    ∃ shape, sampleBuildKernel.result (OCCSolid.mk sampleBody) (.createBox [0, 0, 0] [1, 1, 1])
          = some shape ∧
        (OCCSolid.mk sampleBody).setShape shape = .ok (OCCSolid.mk (sampleSolid 4)) :=
  ⟨⟨by decide, by decide⟩,
    (construction_atomic sampleBuildKernel (OCCSolid.mk sampleBody)
      (.fuse (OCCSolid.mk (sampleSolid 4)))).1 (by decide),
    (construction_atomic sampleBuildKernel (OCCSolid.mk sampleBody)
      (.createBox [0, 0, 0] [1, 1, 1])).2 (by decide)⟩

/-! ## Chamfer takes no paired list -/

/-- When the number of distances is neither `1` nor `edges_size`, the chamfer
loop returns 1 at its first eligible edge, having added nothing. -/
theorem OCCSolid.chamferLoop_mismatch (K : Kernel) (solid : TopoDS_Shape) (n : Nat)
    (distances : List Standard_Real) (h1 : distances.length ≠ 1) (h2 : distances.length ≠ n)
    (rest : List TopoDS_Shape) :
    ∀ (i : Nat) (calls : List KernelCall), (∃ e ∈ rest, K.eligible solid e = true) →
      OCCSolid.chamferLoop K solid n distances i rest calls = (some 1, calls) := by
  induction rest with
  | nil => intro i calls h; simp at h
  | cons edge rest ih =>
    intro i calls hex
    unfold OCCSolid.chamferLoop
    by_cases he : K.eligible solid edge = true
    · simp only [Kernel.eligible, Bool.and_eq_true, Bool.not_eq_true', Bool.not_eq_eq_eq_not,
        Bool.not_true] at he
      simp [he.1, he.2, h1, h2]
    · have hex1 : ∃ e ∈ rest, K.eligible solid e = true := by
        obtain ⟨e, hmem, hee⟩ := hex
        rcases List.mem_cons.mp hmem with h | h
        · subst h; exact absurd hee he
        · exact ⟨e, h, hee⟩
      have ih1 := fun calls1 => ih (i + 1) calls1 hex1
      by_cases hd : K.Degenerated edge = true
      · simp [hd, ih1]
      · have hc : K.IsClosed edge (K.FindFromKey_First solid edge) = true := by
          simp only [Kernel.eligible, Bool.and_eq_true, Bool.not_eq_true', Bool.not_eq_eq_eq_not,
            Bool.not_true, not_and, Bool.not_eq_false] at he
          simp only [Bool.not_eq_true] at hd
          exact he hd
        simp [hd, hc, ih1]

/-- C16: chamfer accepts only the uniform and per-edge policies. For every edge
list holding at least one eligible edge and every distance list whose length is
neither 1 nor the number of supplied edges (a paired list of length `2N` among
them), chamfer returns 1 without any kernel registration call, without the
build call, and leaves the shape of the entity unchanged. -/
theorem chamfer_mismatch_fails (K : Kernel) (self : OCCSolid) (edges : List TopoDS_Shape)
    (distances : List Standard_Real) (hex : ∃ e ∈ edges, K.eligible self.solid e = true)
    (h1 : distances.length ≠ 1) (h2 : distances.length ≠ edges.length) :
    self.chamfer K edges distances = Run.mk (.returned 1) self [] := by
  have h := OCCSolid.chamferLoop_mismatch K self.solid edges.length distances h1 h2 edges 0 [] hex
  simp [OCCSolid.chamfer, h]

/-- C16 (witness): two eligible edges with a paired list of four distances:
chamfer returns 1 with no kernel call and the sample body in place. -/
theorem chamfer_mismatch_fails_witness :
    ((∃ e ∈ [sampleEdge 1, sampleEdge 2], sampleKernel.eligible sampleBody e = true) ∧
      [(10 : Standard_Real), 11, 20, 21].length ≠ 1 ∧
      [(10 : Standard_Real), 11, 20, 21].length ≠ [sampleEdge 1, sampleEdge 2].length) ∧
    (OCCSolid.mk sampleBody).chamfer sampleKernel [sampleEdge 1, sampleEdge 2] [10, 11, 20, 21]
      = Run.mk (.returned 1) (OCCSolid.mk sampleBody) [] :=
  ⟨⟨by decide, by decide, by decide⟩,
    chamfer_mismatch_fails sampleKernel (OCCSolid.mk sampleBody) [sampleEdge 1, sampleEdge 2]
      [10, 11, 20, 21] (by decide) (by decide) (by decide)⟩

end OCCModel
